import Mathlib

/-!
# Verification of the Multimodal-tutor application

Shallow embedding of the parts of the Multimodal-tutor Flask application
(src/app/routes.py, src/app/models.py, src/modules/text_generation.py)
that the specification claims are about, together with proofs or
refutations of those claims.

Python strings are embedded as `List Char` (the type `Str` below); Python
dictionaries parsed from JSON are association lists with distinct keys in
insertion order; machine-level `int` is `Int` and the floating-point
`percentage` column is modelled exactly over `Rat`.
-/

set_option autoImplicit false

namespace Tutor

/-- Python strings are modelled as lists of characters. -/
abbrev Str := List Char

/-- The backtick character (used by the markdown fences the code strips). -/
def btick : Char := Char.ofNat 96

/-- Whitespace in the sense of Python `str.strip()` / `str.split()`
(the ASCII whitespace characters). -/
def isPySpace (c : Char) : Bool :=
  c == ' ' || c == '\t' || c == '\n' || c == '\r' || c == '\x0b' || c == '\x0c'

/-- `s.lstrip(set)`: drop leading characters belonging to `set`. -/
def pyLStrip (set : Str) (s : Str) : Str :=
  s.dropWhile (fun c => set.contains c)

/-- `s.rstrip(set)`: drop trailing characters belonging to `set`. -/
def pyRStrip (set : Str) (s : Str) : Str :=
  ((s.reverse).dropWhile (fun c => set.contains c)).reverse

/-- `s.strip()`: drop leading and trailing Python whitespace. -/
def pyStrip (s : Str) : Str :=
  ((s.dropWhile isPySpace).reverse.dropWhile isPySpace).reverse

/-- The character set of the Python literal `'¬'`-free fence argument
`lstrip` receives in `generate_quiz_json` (three backticks and the letters
j, s, o, n); `str.lstrip` treats its argument as a set of characters. -/
def fenceSet : Str := [btick, btick, btick, 'j', 's', 'o', 'n']

/-- The leading markdown fence text `'¬'`-free the model may emit. -/
def fenceOpen : Str := [btick, btick, btick, 'j', 's', 'o', 'n']

/-- The trailing markdown fence (three backticks). -/
def fenceClose : Str := [btick, btick, btick]

/-- src/modules/text_generation.py line 150:
`cleaned_text = raw_text.strip().lstrip('<fence>json').rstrip('<fence>').strip()`. -/
def cleanQuizText (raw : Str) : Str :=
  pyStrip (pyRStrip [btick] (pyLStrip fenceSet (pyStrip raw)))

/-- The opening-brace character, written by code point to keep it out of
string literals. -/
def lbrace : Char := Char.ofNat 123

/-- The closing-brace character. -/
def rbrace : Char := Char.ofNat 125

/-- JSON values as Python json.loads produces them.  Objects are Python
dicts: association lists whose keys are distinct, in insertion order.
Numbers are restricted to integers: no claim of the specification involves
fractional JSON numbers, and the quiz payloads the code handles are made of
objects, arrays and strings. -/
inductive Json where
  | null
  | bool (b : Bool)
  | num (n : Int)
  | str (s : Str)
  | arr (xs : List Json)
  | obj (kvs : List (Str × Json))

/-- `d.get(k)` / `d[k]` on a Python dict (keys are distinct, so the first
match is the only match). -/
def dictGet (kvs : List (Str × Json)) (k : Str) : Option Json :=
  (kvs.find? (fun p => p.1 == k)).map (fun p => p.2)

/-- `k in d` on a Python dict. -/
def dictHas (kvs : List (Str × Json)) (k : Str) : Bool :=
  kvs.any (fun p => p.1 == k)

/-- `d[k] = v` on a Python dict: replace in place when the key exists,
append otherwise (Python dicts keep insertion order). -/
def dictInsert (kvs : List (Str × Json)) (k : Str) (v : Json) :
    List (Str × Json) :=
  if kvs.any (fun p => p.1 == k) then
    kvs.map (fun p => if p.1 == k then (k, v) else p)
  else kvs ++ [(k, v)]

/-- JSON whitespace accepted between tokens by Python json.loads. -/
def isJsonWs (c : Char) : Bool :=
  c == ' ' || c == '\t' || c == '\n' || c == '\r'

/-- Skip JSON whitespace. -/
def skipWs (s : Str) : Str := s.dropWhile isJsonWs

/-- Parse the body of a JSON string after the opening quote, handling the
one-character escapes (the `\uXXXX` form is not modelled; no claim feeds
one to the parser). Returns the decoded string and the rest of the input. -/
def parseStringBody : Str → Option (Str × Str)
  | [] => none
  | c :: rest =>
    if c == '"' then some ([], rest)
    else if c == '\\' then
      match rest with
      | [] => none
      | e :: rest2 =>
        let dec : Option Char :=
          if e == '"' then some '"'
          else if e == '\\' then some '\\'
          else if e == '/' then some '/'
          else if e == 'n' then some '\n'
          else if e == 't' then some '\t'
          else if e == 'r' then some '\r'
          else if e == 'b' then some (Char.ofNat 8)
          else if e == 'f' then some (Char.ofNat 12)
          else none
        match dec with
        | none => none
        | some d => (parseStringBody rest2).map (fun p => (d :: p.1, p.2))
    else (parseStringBody rest).map (fun p => (c :: p.1, p.2))

/-- Accumulate decimal digits. -/
def takeDigits (acc : Nat) : Str → (Nat × Str)
  | [] => (acc, [])
  | c :: rest =>
    if c.isDigit then takeDigits (acc * 10 + (c.toNat - 48)) rest
    else (acc, c :: rest)

/-- Parse a JSON integer literal (fractional numbers are not modelled). -/
def parseNumber : Str → Option (Int × Str)
  | [] => none
  | c :: rest =>
    if c == '-' then
      match rest with
      | d :: _ =>
        if d.isDigit then
          let p := takeDigits 0 rest
          some (-(p.1 : Int), p.2)
        else none
      | [] => none
    else if c.isDigit then
      let p := takeDigits 0 (c :: rest)
      some ((p.1 : Int), p.2)
    else none

mutual

/-- Parse one JSON value; `fuel` bounds the recursion depth. -/
def parseValue : Nat → Str → Option (Json × Str)
  | 0, _ => none
  | fuel + 1, s =>
    match skipWs s with
    | 't' :: 'r' :: 'u' :: 'e' :: rest => some (.bool true, rest)
    | 'f' :: 'a' :: 'l' :: 's' :: 'e' :: rest => some (.bool false, rest)
    | 'n' :: 'u' :: 'l' :: 'l' :: rest => some (.null, rest)
    | '"' :: rest => (parseStringBody rest).map (fun p => (.str p.1, p.2))
    | '[' :: rest =>
      (match skipWs rest with
       | ']' :: r2 => some (.arr [], r2)
       | r2 => parseItems fuel r2 [])
    | c :: rest =>
      if c == lbrace then
        match skipWs rest with
        | c2 :: r2 =>
          if c2 == rbrace then some (.obj [], r2)
          else parsePairs fuel (c2 :: r2) []
        | [] => none
      else parseNumber (c :: rest) |>.map (fun p => (.num p.1, p.2))
    | [] => none

/-- Parse the items of a non-empty JSON array. -/
def parseItems : Nat → Str → List Json → Option (Json × Str)
  | 0, _, _ => none
  | fuel + 1, s, acc =>
    match parseValue fuel s with
    | none => none
    | some (v, rest) =>
      match skipWs rest with
      | ',' :: r2 => parseItems fuel r2 (acc ++ [v])
      | ']' :: r2 => some (.arr (acc ++ [v]), r2)
      | _ => none

/-- Parse the members of a non-empty JSON object; duplicate keys overwrite
earlier ones, as in a Python dict. -/
def parsePairs : Nat → Str → List (Str × Json) → Option (Json × Str)
  | 0, _, _ => none
  | fuel + 1, s, acc =>
    match skipWs s with
    | '"' :: rest =>
      (match parseStringBody rest with
       | none => none
       | some (k, r1) =>
         match skipWs r1 with
         | ':' :: r2 =>
           (match parseValue fuel r2 with
            | none => none
            | some (v, r3) =>
              let acc2 := dictInsert acc k v
              match skipWs r3 with
              | ',' :: r4 => parsePairs fuel r4 acc2
              | c :: r4 =>
                if c == rbrace then some (.obj acc2, r4) else none
              | [] => none)
         | _ => none)
    | _ => none

end

/-- Python `json.loads`: parse a complete JSON document, demanding that
nothing but whitespace follows.  The fuel `2 * length + 4` dominates the
recursion depth (each nesting level consumes at least one character). -/
def loads (s : Str) : Option Json :=
  match parseValue (2 * s.length + 4) s with
  | some (v, rest) => if (skipWs rest).isEmpty then some v else none
  | none => none

/-- Escape one character as Python `json.dumps` does for the characters the
claims exercise (quote and backslash; `\uXXXX` escapes for control and
non-ASCII characters are not modelled). -/
def escapeChar (c : Char) : Str :=
  if c == '"' then ['\\', '"']
  else if c == '\\' then ['\\', '\\']
  else [c]

/-- Serialize a string literal as `json.dumps` does. -/
def dumpsStr (s : Str) : Str :=
  '"' :: s.foldr (fun c acc => escapeChar c ++ acc) ['"']

/-- Concatenate with a separator between elements. -/
def joinSep (sep : Str) : List Str → Str
  | [] => []
  | [x] => x
  | x :: xs => x ++ sep ++ joinSep sep xs

mutual

/-- Python `json.dumps` with its default separators. -/
def dumps : Json → Str
  | .null => "null".data
  | .bool true => "true".data
  | .bool false => "false".data
  | .num n => (toString n).data
  | .str s => dumpsStr s
  | .arr xs => '[' :: joinSep (", ".data) (dumpsList xs) ++ [']']
  | .obj kvs => lbrace :: joinSep (", ".data) (dumpsPairs kvs) ++ [rbrace]

/-- Serialize the elements of an array. -/
def dumpsList : List Json → List Str
  | [] => []
  | x :: xs => dumps x :: dumpsList xs

/-- Serialize the members of an object. -/
def dumpsPairs : List (Str × Json) → List Str
  | [] => []
  | (k, v) :: kvs => (dumpsStr k ++ ": ".data ++ dumps v) :: dumpsPairs kvs

end

mutual

/-- Python `repr` of a parsed-JSON value (used through `str` below). -/
def pyRepr : Json → Str
  | .null => "None".data
  | .bool true => "True".data
  | .bool false => "False".data
  | .num n => (toString n).data
  | .str s => '\x27' :: s ++ ['\x27']
  | .arr xs => '[' :: joinSep (", ".data) (pyReprList xs) ++ [']']
  | .obj kvs => lbrace :: joinSep (", ".data) (pyReprPairs kvs) ++ [rbrace]

/-- `repr` of the elements of a list. -/
def pyReprList : List Json → List Str
  | [] => []
  | x :: xs => pyRepr x :: pyReprList xs

/-- `repr` of the members of a dict. -/
def pyReprPairs : List (Str × Json) → List Str
  | [] => []
  | (k, v) :: kvs =>
    (('\x27' :: k ++ ['\x27']) ++ ": ".data ++ pyRepr v) :: pyReprPairs kvs

end

/-- Python `str()` of a parsed-JSON value. -/
def pyStr : Json → Str
  | .str s => s
  | v => pyRepr v

/-- Python `int(x)` on a parsed-JSON value: `none` models a raised
`TypeError`/`ValueError` (underscored integer literals are not modelled). -/
def pyInt : Json → Option Int
  | .bool b => some (if b then 1 else 0)
  | .num n => some n
  | .str s =>
    let t := pyStrip s
    match t with
    | [] => none
    | c :: rest =>
      let digits : Str := if c == '-' || c == '+' then rest else t
      if digits.isEmpty || !(digits.all Char.isDigit) then none
      else
        let p := takeDigits 0 digits
        some (if c == '-' then -(p.1 : Int) else (p.1 : Int))
  | _ => none

/-- Python truthiness of a parsed-JSON value. -/
def pyTruthy : Json → Bool
  | .null => false
  | .bool b => b
  | .num n => n != 0
  | .str s => !s.isEmpty
  | .arr xs => !xs.isEmpty
  | .obj kvs => !kvs.isEmpty

/-- `needle` is a leading segment of `hay`. -/
def strStarts : Str → Str → Bool
  | [], _ => true
  | _ :: _, [] => false
  | a :: as, b :: bs => a == b && strStarts as bs

/-- Python `needle in hay` on strings: contiguous-substring containment
(the empty string is contained in every string). -/
def strSub (needle : Str) : Str → Bool
  | [] => needle.isEmpty
  | c :: rest => strStarts needle (c :: rest) || strSub needle rest

-- =====================================================================
-- src/modules/text_generation.py: generate_quiz_json (lines 95-200)
-- =====================================================================

/-- The outcome of the Gemini `generate_content` call as `generate_quiz_json`
observes it. -/
inductive GeminiResp where
  /-- The SDK call itself raised. -/
  | raises
  /-- `response.parts` is empty and the prompt feedback is readable. -/
  | blocked (reason : Str)
  /-- `response.parts` is empty and reading the feedback raised too. -/
  | blockedNoFeedback
  /-- `response.text` was produced. -/
  | ok (text : Str)

/-- A `jsonify`-able error dictionary with a single key `error`. -/
def errObj (msg : Str) : Json := .obj [("error".data, .str msg)]

/-- The two exception routes out of validation: `ValueError` (caught at
line 188 of text_generation.py) and any other exception such as the
`TypeError` raised by `q[<answer>] not in <ABCD>` on a non-string answer
(caught by the generic handler at line 196). -/
inductive QuizFail where
  | valErr (msg : Str)
  | typeErr

/-- Lines 171-175: replace each non-string option value by `str(value)`
(string values are left alone). -/
def fixOptions (opts : List (Str × Json)) : List (Str × Json) :=
  opts.map (fun p =>
    match p.2 with
    | .str _ => p
    | v => (p.1, Json.str (pyStr v)))

/-- The option fix lifted to the value stored under `options` (validation
has already established that it is a dictionary). -/
def fixOptionsVal : Json → Json
  | .obj opts => .obj (fixOptions opts)
  | v => v

/-- The in-place effect of the option fix on one question dictionary. -/
def fixQuestion (kvs : List (Str × Json)) : List (Str × Json) :=
  kvs.map (fun p =>
    if p.1 == "options".data then (p.1, fixOptionsVal p.2) else p)

/-- Lines 163-175: validation of a single question dictionary, in source
order (required keys, then options structure, then the `answer not in
<ABCD>` membership test, then the option-value conversion). -/
def validateQuestion (q : Json) : Except QuizFail Json :=
  match q with
  | .obj kvs =>
    if dictHas kvs "question".data && dictHas kvs "options".data &&
        dictHas kvs "answer".data then
      match dictGet kvs "options".data with
      | some (.obj opts) =>
        if opts.length == 4 && dictHas opts "A".data && dictHas opts "B".data
            && dictHas opts "C".data && dictHas opts "D".data then
          match dictGet kvs "answer".data with
          | some (.str a) =>
            if strSub a "ABCD".data then .ok (.obj (fixQuestion kvs))
            else .error (.valErr "invalid answer key".data)
          | some _ => .error .typeErr
          | none => .error .typeErr
        else .error (.valErr "invalid options structure".data)
      | some _ => .error (.valErr "invalid options structure".data)
      | none => .error (.valErr "invalid options structure".data)
    else .error (.valErr "missing required keys".data)
  | _ => .error (.valErr "missing required keys".data)

/-- The loop over `quiz_data[<questions>]`; the first failure aborts with
that question's exception, exactly as the Python `for` loop does. -/
def validateQuestions : List Json → Except QuizFail (List Json)
  | [] => .ok []
  | q :: qs =>
    match validateQuestion q with
    | .error e => .error e
    | .ok q2 =>
      match validateQuestions qs with
      | .error e => .error e
      | .ok qs2 => .ok (q2 :: qs2)

/-- Lines 157-178: root-structure checks followed by the per-question loop;
on success the same dictionary is returned with its questions list rebuilt
from the (possibly option-fixed) questions. -/
def validateQuiz (j : Json) : Except QuizFail Json :=
  match j with
  | .obj kvs =>
    match dictGet kvs "questions".data with
    | some (.arr qs) =>
      if qs.isEmpty then .error (.valErr "empty questions list".data)
      else
        match validateQuestions qs with
        | .error e => .error e
        | .ok qs2 => .ok (.obj (dictInsert kvs "questions".data (.arr qs2)))
    | some _ => .error (.valErr "root structure invalid".data)
    | none => .error (.valErr "root structure invalid".data)
  | _ => .error (.valErr "root structure invalid".data)

/-- The fixed error message of the generic exception handler (line 200). -/
def unexpectedQuizMsg : Str :=
  "Unexpected error during quiz generation. Check server logs.".data

/-- src/modules/text_generation.py lines 95-200, `generate_quiz_json`.
The function never lets an exception escape: every branch produces a
dictionary.  The embedded exception text of the JSON-decode and validation
error messages is elided; only the surrounding fixed words are kept. -/
def generate_quiz_json (configured : Bool) (resp : GeminiResp) : Json :=
  if !configured then
    errObj "AI service not configured (missing or invalid API key).".data
  else
    match resp with
    | .raises => errObj unexpectedQuizMsg
    | .blocked reason =>
      errObj ("Quiz generation blocked by AI. Reason: ".data ++ reason)
    | .blockedNoFeedback =>
      errObj "AI response was empty or blocked for an unknown reason.".data
    | .ok raw =>
      let cleaned := cleanQuizText raw
      match loads cleaned with
      | none =>
        errObj ("Failed to parse JSON from Gemini response. ".data ++
          "Check server logs for the raw response.".data)
      | some qd =>
        match validateQuiz qd with
        | .ok q => q
        | .error (.valErr m) =>
          errObj ("Generated quiz JSON structure validation failed: ".data
            ++ m ++ ". Check server logs for the cleaned response.".data)
        | .error .typeErr => errObj unexpectedQuizMsg

/-- Is the value a dictionary containing the key `error`? -/
def isErrorDict (j : Json) : Bool :=
  match j with
  | .obj kvs => dictHas kvs "error".data
  | _ => false

/-- Is the value a JSON string? -/
def isStrVal (j : Json) : Bool :=
  match j with
  | .str _ => true
  | _ => false

/-- The well-formed options dictionary: exactly the four keys A, B, C, D
(four entries, each of the four present), every value a string. -/
def optionsShape (v : Option Json) : Bool :=
  match v with
  | some (.obj opts) =>
    opts.length == 4 && dictHas opts "A".data && dictHas opts "B".data &&
      dictHas opts "C".data && dictHas opts "D".data &&
      opts.all (fun p => isStrVal p.2)
  | _ => false

/-- One quiz question in the required shape, with the acceptable answers
given by `ansOk`. -/
def questionShapeWith (ansOk : Str → Bool) (q : Json) : Bool :=
  match q with
  | .obj kvs =>
    dictHas kvs "question".data && optionsShape (dictGet kvs "options".data)
      && (match dictGet kvs "answer".data with
          | some (.str a) => ansOk a
          | _ => false)
  | _ => false

/-- A full quiz dictionary in the required shape: a dict whose `questions`
value is a non-empty list of well-shaped questions. -/
def quizShapeWith (ansOk : Str → Bool) (j : Json) : Bool :=
  match j with
  | .obj kvs =>
    match dictGet kvs "questions".data with
    | some (.arr qs) => !qs.isEmpty && qs.all (questionShapeWith ansOk)
    | _ => false
  | _ => false

/-- The claimed answer alphabet: exactly one of the four letters. -/
def specAnswerOk (a : Str) : Bool :=
  a == "A".data || a == "B".data || a == "C".data || a == "D".data

/-- The quiz shape exactly as the specification claim words it: the answer
value is one of the four strings A, B, C, D.  (Written from the claim, to
be compared with what the code guarantees.) -/
def specQuizShape : Json → Bool := quizShapeWith specAnswerOk

/-- The quiz shape the code actually guarantees: the answer value is any
contiguous substring of `ABCD` (the empty string included), because the
code checks membership with `answer not in <ABCD>`. -/
def codeQuizShape : Json → Bool :=
  quizShapeWith (fun a => strSub a "ABCD".data)

/-- A concrete quiz whose single question carries the answer string `AB`:
it passes the code's validation but is not in the claimed shape. -/
def quizAB : Json :=
  Json.obj [("questions".data, Json.arr [Json.obj
    [("question".data, Json.str "q".data),
     ("options".data, Json.obj
       [("A".data, Json.str "a".data), ("B".data, Json.str "b".data),
        ("C".data, Json.str "c".data), ("D".data, Json.str "d".data)]),
     ("answer".data, Json.str "AB".data)]])]

-- =====================================================================
-- Lemmas about the option fix and validation (claim C1)
-- =====================================================================

theorem dictGet_nil (k : Str) : dictGet [] k = none := rfl

theorem dictGet_cons (p : Str × Json) (t : List (Str × Json)) (k : Str) :
    dictGet (p :: t) k = if p.1 == k then some p.2 else dictGet t k := by
  cases h : (p.1 == k) with
  | false =>
    unfold dictGet
    rw [List.find?_cons_of_neg _ (by simp [h])]
    simp [h]
  | true =>
    unfold dictGet
    rw [List.find?_cons_of_pos _ (by simp [h])]
    simp [h]

theorem dictHas_cons (p : Str × Json) (t : List (Str × Json)) (k : Str) :
    dictHas (p :: t) k = (p.1 == k || dictHas t k) := by
  simp [dictHas, List.any_cons]

theorem fixQuestion_cons (p : Str × Json) (t : List (Str × Json)) :
    fixQuestion (p :: t)
      = (if p.1 == "options".data then (p.1, fixOptionsVal p.2) else p)
          :: fixQuestion t := by
  simp [fixQuestion]

theorem fixOptions_length (opts : List (Str × Json)) :
    (fixOptions opts).length = opts.length := by
  simp [fixOptions]

theorem dictHas_fixOptions (opts : List (Str × Json)) (k : Str) :
    dictHas (fixOptions opts) k = dictHas opts k := by
  induction opts with
  | nil => rfl
  | cons p t ih =>
    obtain ⟨pk, pv⟩ := p
    cases pv <;>
      simp only [fixOptions, List.map_cons, dictHas_cons] at ih ⊢ <;>
      rw [ih]

theorem fixOptions_all_str (opts : List (Str × Json)) :
    (fixOptions opts).all (fun p => isStrVal p.2) = true := by
  induction opts with
  | nil => rfl
  | cons p t ih =>
    obtain ⟨pk, pv⟩ := p
    cases pv <;>
      simp only [fixOptions, List.map_cons, List.all_cons, isStrVal,
        Bool.true_and] at ih ⊢ <;>
      simp [ih]

theorem dictHas_fixQuestion (kvs : List (Str × Json)) (k : Str) :
    dictHas (fixQuestion kvs) k = dictHas kvs k := by
  induction kvs with
  | nil => rfl
  | cons p t ih =>
    rw [fixQuestion_cons]
    cases h : (p.1 == "options".data) with
    | false =>
      rw [if_neg (by simp [h]), dictHas_cons, dictHas_cons, ih]
    | true =>
      rw [if_pos (by simp [h]), dictHas_cons, dictHas_cons, ih]

theorem dictGet_fixQuestion_ne (kvs : List (Str × Json)) (k : Str)
    (hk : k ≠ "options".data) :
    dictGet (fixQuestion kvs) k = dictGet kvs k := by
  induction kvs with
  | nil => rfl
  | cons p t ih =>
    rw [fixQuestion_cons]
    cases h : (p.1 == "options".data) with
    | false =>
      rw [if_neg (by simp [h]), dictGet_cons, dictGet_cons, ih]
    | true =>
      rw [if_pos (by simp [h]), dictGet_cons, dictGet_cons, ih]
      have hp : p.1 = "options".data := by simpa [beq_iff_eq] using h
      have hne : (p.1 == k) = false := by
        rw [hp]
        exact beq_eq_false_iff_ne.mpr (fun hc => hk hc.symm)
      simp [hne]

theorem dictGet_fixQuestion_options (kvs : List (Str × Json)) :
    dictGet (fixQuestion kvs) "options".data
      = (dictGet kvs "options".data).map fixOptionsVal := by
  induction kvs with
  | nil => rfl
  | cons p t ih =>
    rw [fixQuestion_cons]
    cases h : (p.1 == "options".data) with
    | false =>
      rw [if_neg (by simp [h]), dictGet_cons, dictGet_cons, ih]
      simp [h]
    | true =>
      rw [if_pos (by simp [h]), dictGet_cons, dictGet_cons]
      simp [h]

theorem validateQuestion_ok_shape {q q2 : Json}
    (h : validateQuestion q = .ok q2) :
    questionShapeWith (fun a => strSub a "ABCD".data) q2 = true := by
  cases q with
  | obj kvs =>
    cases hkeys : (dictHas kvs "question".data && dictHas kvs "options".data
        && dictHas kvs "answer".data) with
    | false => simp [validateQuestion, hkeys] at h
    | true =>
      cases hopt : dictGet kvs "options".data with
      | none => simp [validateQuestion, hkeys, hopt] at h
      | some ov =>
        cases ov with
        | obj opts =>
          cases hopts : (opts.length == 4 && dictHas opts "A".data &&
              dictHas opts "B".data && dictHas opts "C".data &&
              dictHas opts "D".data) with
          | false => simp [validateQuestion, hkeys, hopt, hopts] at h
          | true =>
            cases hans : dictGet kvs "answer".data with
            | none => simp [validateQuestion, hkeys, hopt, hopts, hans] at h
            | some av =>
              cases av with
              | str a =>
                cases hsub : strSub a "ABCD".data with
                | false =>
                  simp [validateQuestion, hkeys, hopt, hopts, hans, hsub] at h
                | true =>
                  simp only [validateQuestion, hkeys, hopt, hopts, hans, hsub,
                    if_pos, if_true, Except.ok.injEq] at h
                  subst h
                  simp only [Bool.and_eq_true] at hkeys hopts
                  obtain ⟨⟨hkq, hko⟩, hka⟩ := hkeys
                  obtain ⟨⟨⟨⟨hlen, hA⟩, hB⟩, hC⟩, hD⟩ := hopts
                  unfold questionShapeWith
                  simp only [Bool.and_eq_true]
                  refine ⟨⟨?_, ?_⟩, ?_⟩
                  · rw [dictHas_fixQuestion]; exact hkq
                  · rw [dictGet_fixQuestion_options, hopt]
                    simp only [Option.map, fixOptionsVal, optionsShape,
                      Bool.and_eq_true]
                    refine ⟨⟨⟨⟨⟨?_, ?_⟩, ?_⟩, ?_⟩, ?_⟩, ?_⟩
                    · rw [fixOptions_length]; exact hlen
                    · rw [dictHas_fixOptions]; exact hA
                    · rw [dictHas_fixOptions]; exact hB
                    · rw [dictHas_fixOptions]; exact hC
                    · rw [dictHas_fixOptions]; exact hD
                    · exact fixOptions_all_str opts
                  · rw [dictGet_fixQuestion_ne kvs "answer".data (by decide),
                      hans]
                    exact hsub
              | null => simp [validateQuestion, hkeys, hopt, hopts, hans] at h
              | bool b => simp [validateQuestion, hkeys, hopt, hopts, hans] at h
              | num n => simp [validateQuestion, hkeys, hopt, hopts, hans] at h
              | arr xs => simp [validateQuestion, hkeys, hopt, hopts, hans] at h
              | obj o => simp [validateQuestion, hkeys, hopt, hopts, hans] at h
        | null => simp [validateQuestion, hkeys, hopt] at h
        | bool b => simp [validateQuestion, hkeys, hopt] at h
        | num n => simp [validateQuestion, hkeys, hopt] at h
        | str s => simp [validateQuestion, hkeys, hopt] at h
        | arr xs => simp [validateQuestion, hkeys, hopt] at h
  | null => simp [validateQuestion] at h
  | bool b => simp [validateQuestion] at h
  | num n => simp [validateQuestion] at h
  | str s => simp [validateQuestion] at h
  | arr xs => simp [validateQuestion] at h

theorem validateQuestions_ok_shape {qs qs2 : List Json}
    (h : validateQuestions qs = .ok qs2) :
    qs2.all (questionShapeWith (fun a => strSub a "ABCD".data)) = true ∧
      qs2.length = qs.length := by
  induction qs generalizing qs2 with
  | nil =>
    simp only [validateQuestions, Except.ok.injEq] at h
    subst h
    exact ⟨rfl, rfl⟩
  | cons q t ih =>
    cases hq : validateQuestion q with
    | error e => simp [validateQuestions, hq] at h
    | ok q2 =>
      cases ht : validateQuestions t with
      | error e => simp [validateQuestions, hq, ht] at h
      | ok t2 =>
        simp only [validateQuestions, hq, ht, Except.ok.injEq] at h
        subst h
        obtain ⟨h1, h2⟩ := ih ht
        refine ⟨?_, by simp [h2]⟩
        simp only [List.all_cons, Bool.and_eq_true]
        exact ⟨validateQuestion_ok_shape hq, h1⟩

theorem dictGet_append_missing (kvs : List (Str × Json)) (k : Str)
    (v : Json) (h : kvs.any (fun p => p.1 == k) = false) :
    dictGet (kvs ++ [(k, v)]) k = some v := by
  induction kvs with
  | nil => simp [dictGet_cons, dictGet_nil]
  | cons p t ih =>
    simp only [List.any_cons, Bool.or_eq_false_iff] at h
    obtain ⟨h1, h2⟩ := h
    rw [List.cons_append, dictGet_cons, h1]
    simp only [Bool.false_eq_true, if_neg, not_false_iff]
    exact ih h2

theorem dictGet_replace (kvs : List (Str × Json)) (k : Str) (v : Json)
    (h : kvs.any (fun p => p.1 == k) = true) :
    dictGet (kvs.map (fun p => if p.1 == k then (k, v) else p)) k
      = some v := by
  induction kvs with
  | nil => exact Bool.noConfusion h
  | cons p t ih =>
    rw [List.map_cons]
    cases hp : (p.1 == k) with
    | true =>
      rw [if_pos (by simp [hp]), dictGet_cons]
      simp
    | false =>
      have h2 : t.any (fun p => p.1 == k) = true := by
        rw [List.any_cons, hp, Bool.false_or] at h
        exact h
      rw [if_neg (by simp [hp]), dictGet_cons, hp]
      simp only [Bool.false_eq_true, if_neg, not_false_iff]
      exact ih h2

theorem dictGet_dictInsert_self (kvs : List (Str × Json)) (k : Str)
    (v : Json) : dictGet (dictInsert kvs k v) k = some v := by
  unfold dictInsert
  cases h : kvs.any (fun p => p.1 == k) with
  | true =>
    rw [if_pos rfl]
    exact dictGet_replace kvs k v h
  | false =>
    rw [if_neg (by simp)]
    exact dictGet_append_missing kvs k v h

theorem validateQuiz_ok_shape {j q : Json} (h : validateQuiz j = .ok q) :
    codeQuizShape q = true := by
  cases j with
  | obj kvs =>
    cases hq : dictGet kvs "questions".data with
    | none => simp [validateQuiz, hq] at h
    | some qv =>
      cases qv with
      | arr qs =>
        cases hemp : qs.isEmpty with
        | true => simp [validateQuiz, hq, hemp] at h
        | false =>
          cases hv : validateQuestions qs with
          | error e => simp [validateQuiz, hq, hemp, hv] at h
          | ok qs2 =>
            simp only [validateQuiz, hq, hemp, hv, Bool.false_eq_true,
              if_neg, not_false_iff, Except.ok.injEq] at h
            subst h
            obtain ⟨hall, hlen⟩ := validateQuestions_ok_shape hv
            unfold codeQuizShape
            simp only [quizShapeWith]
            rw [dictGet_dictInsert_self]
            simp only [Bool.and_eq_true]
            refine ⟨?_, hall⟩
            cases qs2 with
            | cons a l => rfl
            | nil =>
              exfalso
              have hq0 : qs.length = 0 := by simpa using hlen.symm
              have : qs = [] := List.length_eq_zero.mp hq0
              subst this
              simp at hemp
      | null => simp [validateQuiz, hq] at h
      | bool b => simp [validateQuiz, hq] at h
      | num n => simp [validateQuiz, hq] at h
      | str s => simp [validateQuiz, hq] at h
      | obj o => simp [validateQuiz, hq] at h
  | null => simp [validateQuiz] at h
  | bool b => simp [validateQuiz] at h
  | num n => simp [validateQuiz] at h
  | str s => simp [validateQuiz] at h
  | arr xs => simp [validateQuiz] at h

theorem isErrorDict_errObj (m : Str) : isErrorDict (errObj m) = true := rfl

/-- C1 (counterexample): the claim says `generate_quiz_json` returns either
an error dictionary or a quiz whose every answer is one of A, B, C, D.  On
the model response that serializes `quizAB` (answer string `AB`), the code
returns `quizAB` itself: not an error dictionary, and not in the claimed
shape, because `answer not in <ABCD>` is substring membership, which the
two-letter string `AB` passes. -/
theorem generate_quiz_json_claim_false :
    isErrorDict (generate_quiz_json true (.ok (dumps quizAB))) = false ∧
      specQuizShape (generate_quiz_json true (.ok (dumps quizAB))) = false ∧
      generate_quiz_json true (.ok (dumps quizAB)) = quizAB :=
  ⟨rfl, rfl, rfl⟩

/-- C1 (amended): for every configuration state and every model response,
`generate_quiz_json` never raises and returns either a dictionary
containing the key `error`, or a dictionary whose `questions` value is a
non-empty list in which every element is a dictionary with the keys
`question`, `options` and `answer`, whose `options` value is a dictionary
with exactly the four keys A, B, C, D all mapped to strings, and whose
`answer` value is a string that is a contiguous substring of `ABCD` (not
necessarily a single letter). -/
theorem generate_quiz_json_shape (configured : Bool) (resp : GeminiResp) :
    isErrorDict (generate_quiz_json configured resp) = true ∨
      codeQuizShape (generate_quiz_json configured resp) = true := by
  cases configured with
  | false => left; rfl
  | true =>
    cases resp with
    | raises => left; rfl
    | blocked r => left; exact isErrorDict_errObj _
    | blockedNoFeedback => left; rfl
    | ok raw =>
      cases hl : loads (cleanQuizText raw) with
      | none =>
        left
        simp [generate_quiz_json, hl, isErrorDict_errObj]
      | some qd =>
        cases hv : validateQuiz qd with
        | error e =>
          left
          cases e with
          | valErr m => simp [generate_quiz_json, hl, hv, isErrorDict_errObj]
          | typeErr => simp [generate_quiz_json, hl, hv, isErrorDict_errObj]
        | ok q =>
          right
          simp only [generate_quiz_json, hl, hv, Bool.not_true,
            Bool.false_eq_true, if_neg, not_false_iff]
          exact validateQuiz_ok_shape hv

-- =====================================================================
-- String-stripping lemmas (claim C2: round-trip of the text cleanup)
-- =====================================================================

theorem dropWhile_append_of_all (p : Char → Bool) (l₁ l₂ : Str)
    (h : ∀ c ∈ l₁, p c = true) :
    (l₁ ++ l₂).dropWhile p = l₂.dropWhile p := by
  induction l₁ with
  | nil => rfl
  | cons a t ih =>
    rw [List.cons_append, List.dropWhile_cons,
      if_pos (h a (List.mem_cons_self a t))]
    exact ih (fun c hc => h c (List.mem_cons_of_mem a hc))

theorem dropWhile_head_neg (p : Char → Bool) (l : Str)
    (h : ∀ c, l.head? = some c → p c = false) : l.dropWhile p = l := by
  cases l with
  | nil => rfl
  | cons a t =>
    rw [List.dropWhile_cons, h a rfl]
    simp

theorem dropWhile_strip (p : Char → Bool) (ws rest : Str)
    (hws : ∀ c ∈ ws, p c = true)
    (hh : ∀ c, rest.head? = some c → p c = false) :
    (ws ++ rest).dropWhile p = rest := by
  rw [dropWhile_append_of_all p ws rest hws, dropWhile_head_neg p rest hh]

theorem head_neg_append (p : Char → Bool) (l₁ l₂ : Str)
    (h1 : ∀ c ∈ l₁, p c = false)
    (h2 : ∀ c, l₂.head? = some c → p c = false) :
    ∀ c, (l₁ ++ l₂).head? = some c → p c = false := by
  intro c hc
  cases l₁ with
  | nil => exact h2 c hc
  | cons a t =>
    rw [List.cons_append] at hc
    injection hc with hac
    subst hac
    exact h1 _ (List.mem_cons_self _ _)

theorem head_neg_of_eq (p : Char → Bool) (l : Str) (c0 : Char)
    (h0 : l.head? = some c0) (hp : p c0 = false) :
    ∀ c, l.head? = some c → p c = false := by
  intro c hc
  rw [h0] at hc
  cases hc
  exact hp

theorem mem_of_getLast?_eq (l : Str) (d : Char) (h : l.getLast? = some d) :
    d ∈ l := by
  have h2 : l.reverse.head? = some d := by rw [List.head?_reverse]; exact h
  have h3 : d ∈ l.reverse :=
    List.mem_of_mem_head? (by rw [h2]; exact Option.mem_some_iff.mpr rfl)
  exact List.mem_reverse.mp h3

theorem getLast_neg_append (p : Char → Bool) (l₁ l₂ : Str)
    (h2 : ∀ c ∈ l₂, p c = false)
    (h1 : ∀ c, l₁.getLast? = some c → p c = false) :
    ∀ c, (l₁ ++ l₂).getLast? = some c → p c = false := by
  intro c hc
  rw [List.getLast?_append] at hc
  cases hll : l₂.getLast? with
  | some d =>
    rw [hll] at hc
    injection hc with hdc
    subst hdc
    exact h2 _ (mem_of_getLast?_eq l₂ _ hll)
  | none =>
    rw [hll] at hc
    exact h1 c hc

theorem getLast_neg_of_eq (p : Char → Bool) (l : Str) (c0 : Char)
    (h0 : l.getLast? = some c0) (hp : p c0 = false) :
    ∀ c, l.getLast? = some c → p c = false := by
  intro c hc
  rw [h0] at hc
  cases hc
  exact hp

theorem pyStrip_sandwich (wsl wsr mid : Str)
    (hwl : ∀ c ∈ wsl, isPySpace c = true)
    (hwr : ∀ c ∈ wsr, isPySpace c = true)
    (hh : ∀ c, mid.head? = some c → isPySpace c = false)
    (hl : ∀ c, mid.getLast? = some c → isPySpace c = false)
    (hne : mid ≠ []) :
    pyStrip (wsl ++ (mid ++ wsr)) = mid := by
  obtain ⟨a, t, rfl⟩ : ∃ a t, mid = a :: t := by
    cases mid with
    | nil => exact absurd rfl hne
    | cons a t => exact ⟨a, t, rfl⟩
  have a1 : (wsl ++ ((a :: t) ++ wsr)).dropWhile isPySpace
      = (a :: t) ++ wsr := by
    apply dropWhile_strip _ _ _ hwl
    intro c hc
    rw [List.cons_append] at hc
    cases hc
    exact hh a rfl
  have a2 : ((a :: t) ++ wsr).reverse.dropWhile isPySpace
      = (a :: t).reverse := by
    rw [List.reverse_append]
    apply dropWhile_strip _ _ _ (fun c hc => hwr c (List.mem_reverse.mp hc))
    intro c hc
    rw [List.head?_reverse] at hc
    exact hl c hc
  unfold pyStrip
  rw [a1, a2, List.reverse_reverse]

theorem pyLStrip_strip (set pre rest : Str)
    (hpre : ∀ c ∈ pre, set.contains c = true)
    (hh : ∀ c, rest.head? = some c → set.contains c = false) :
    pyLStrip set (pre ++ rest) = rest :=
  dropWhile_strip _ pre rest hpre hh

theorem pyLStrip_of_head (set s : Str)
    (hh : ∀ c, s.head? = some c → set.contains c = false) :
    pyLStrip set s = s :=
  dropWhile_head_neg _ s hh

theorem pyRStrip_strip (set mid suf : Str)
    (hsuf : ∀ c ∈ suf, set.contains c = true)
    (hl : ∀ c, mid.getLast? = some c → set.contains c = false) :
    pyRStrip set (mid ++ suf) = mid := by
  unfold pyRStrip
  rw [List.reverse_append,
    dropWhile_strip _ _ _ (fun c hc => hsuf c (List.mem_reverse.mp hc))
      (fun c hc => hl c (by rwa [List.head?_reverse] at hc)),
    List.reverse_reverse]

theorem pyRStrip_of_getLast (set s : Str)
    (hl : ∀ c, s.getLast? = some c → set.contains c = false) :
    pyRStrip set s = s := by
  unfold pyRStrip
  rw [dropWhile_head_neg _ _ (fun c hc => hl c
    (by rwa [List.head?_reverse] at hc)), List.reverse_reverse]

theorem pySpace_cases (c : Char) (h : isPySpace c = true) :
    c = ' ' ∨ c = '\t' ∨ c = '\n' ∨ c = '\r' ∨ c = '\x0b' ∨ c = '\x0c' := by
  simp only [isPySpace, Bool.or_eq_true, beq_iff_eq] at h
  tauto

theorem pySpace_not_fence (c : Char) (h : isPySpace c = true) :
    fenceSet.contains c = false := by
  rcases pySpace_cases c h with h|h|h|h|h|h <;> subst h <;> decide

theorem pySpace_not_btick (c : Char) (h : isPySpace c = true) :
    List.contains [btick] c = false := by
  rcases pySpace_cases c h with h|h|h|h|h|h <;> subst h <;> decide

theorem getLast_neg_append_right (p : Char → Bool) (l₁ l₂ : Str)
    (h2 : ∀ c ∈ l₂, p c = false) (hne : l₂ ≠ []) :
    ∀ c, (l₁ ++ l₂).getLast? = some c → p c = false := by
  intro c hc
  rw [List.getLast?_append] at hc
  cases hll : l₂.getLast? with
  | some d =>
    rw [hll] at hc
    injection hc with h
    subst h
    exact h2 _ (mem_of_getLast?_eq _ _ hll)
  | none =>
    exfalso
    rw [← List.head?_reverse, List.head?_eq_none_iff,
      List.reverse_eq_nil_iff] at hll
    exact hne hll

theorem cleanQuizText_fenced (ws1 ws2 ws3 ws4 s : Str)
    (h1 : ∀ c ∈ ws1, isPySpace c = true) (h2 : ∀ c ∈ ws2, isPySpace c = true)
    (h3 : ∀ c ∈ ws3, isPySpace c = true) (h4 : ∀ c ∈ ws4, isPySpace c = true)
    (hs : s.head? = some lbrace) (hl : s.getLast? = some rbrace) :
    cleanQuizText
      (ws1 ++ (fenceOpen ++ (ws2 ++ (s ++ (ws3 ++ (fenceClose ++ ws4))))))
      = s := by
  have hsne : s ≠ [] := by
    intro h
    rw [h] at hs
    cases hs
  have harg :
      ws1 ++ (fenceOpen ++ (ws2 ++ (s ++ (ws3 ++ (fenceClose ++ ws4)))))
        = ws1 ++ ((fenceOpen ++ (ws2 ++ (s ++ (ws3 ++ fenceClose)))) ++ ws4)
      := by
    simp [List.append_assoc]
  have hmid : fenceOpen ++ (ws2 ++ (s ++ (ws3 ++ fenceClose)))
      = (fenceOpen ++ (ws2 ++ (s ++ ws3))) ++ fenceClose := by
    simp [List.append_assoc]
  have step1 :
      pyStrip (ws1 ++
          ((fenceOpen ++ (ws2 ++ (s ++ (ws3 ++ fenceClose)))) ++ ws4))
        = fenceOpen ++ (ws2 ++ (s ++ (ws3 ++ fenceClose))) := by
    apply pyStrip_sandwich _ _ _ h1 h4
    · exact head_neg_of_eq _ _ btick rfl (by decide)
    · rw [hmid]
      exact getLast_neg_append_right _ _ _ (by decide) (by decide)
    · exact fun hx => List.noConfusion hx
  have step2 :
      pyLStrip fenceSet (fenceOpen ++ (ws2 ++ (s ++ (ws3 ++ fenceClose))))
        = ws2 ++ (s ++ (ws3 ++ fenceClose)) := by
    apply pyLStrip_strip _ _ _ (by decide)
    apply head_neg_append _ _ _ (fun c hc => pySpace_not_fence c (h2 c hc))
    apply head_neg_of_eq _ _ lbrace ?_ (by decide)
    rw [List.head?_append, hs]
    rfl
  have hrest : ws2 ++ (s ++ (ws3 ++ fenceClose))
      = (ws2 ++ (s ++ ws3)) ++ fenceClose := by
    simp [List.append_assoc]
  have step3 : pyRStrip [btick] ((ws2 ++ (s ++ ws3)) ++ fenceClose)
      = ws2 ++ (s ++ ws3) := by
    apply pyRStrip_strip _ _ _ (by decide)
    have hassoc : ws2 ++ (s ++ ws3) = (ws2 ++ s) ++ ws3 := by
      simp [List.append_assoc]
    rw [hassoc]
    apply getLast_neg_append _ _ _ (fun c hc => pySpace_not_btick c (h3 c hc))
    apply getLast_neg_of_eq _ _ rbrace ?_ (by decide)
    rw [List.getLast?_append, hl]
    rfl
  have step4 : pyStrip (ws2 ++ (s ++ ws3)) = s := by
    apply pyStrip_sandwich _ _ _ h2 h3
    · exact head_neg_of_eq _ _ lbrace hs (by decide)
    · exact getLast_neg_of_eq _ _ rbrace hl (by decide)
    · exact hsne
  rw [harg]
  unfold cleanQuizText
  rw [step1, step2, hrest, step3, step4]

theorem cleanQuizText_plain (ws1 ws2 s : Str)
    (h1 : ∀ c ∈ ws1, isPySpace c = true) (h2 : ∀ c ∈ ws2, isPySpace c = true)
    (hs : s.head? = some lbrace) (hl : s.getLast? = some rbrace) :
    cleanQuizText (ws1 ++ (s ++ ws2)) = s := by
  have hsne : s ≠ [] := by
    intro h
    rw [h] at hs
    cases hs
  have step1 : pyStrip (ws1 ++ (s ++ ws2)) = s :=
    pyStrip_sandwich ws1 ws2 s h1 h2
      (head_neg_of_eq _ _ lbrace hs (by decide))
      (getLast_neg_of_eq _ _ rbrace hl (by decide)) hsne
  have step2 : pyLStrip fenceSet s = s :=
    pyLStrip_of_head _ _ (head_neg_of_eq _ _ lbrace hs (by decide))
  have step3 : pyRStrip [btick] s = s :=
    pyRStrip_of_getLast _ _ (getLast_neg_of_eq _ _ rbrace hl (by decide))
  have step4 : pyStrip s = s := by
    unfold pyStrip
    rw [dropWhile_head_neg _ _ (head_neg_of_eq _ _ lbrace hs (by decide)),
      dropWhile_head_neg _ _ (fun c hc =>
        getLast_neg_of_eq _ _ rbrace hl (by decide) c
          (by rwa [List.head?_reverse] at hc)),
      List.reverse_reverse]
  unfold cleanQuizText
  rw [step1, step2, step3, step4]

/-- Distinctness of a key list (a structural invariant of every value that
denotes a Python dict). -/
def nodupKeys : List Str → Bool
  | [] => true
  | k :: ks => !(ks.any (fun x => x == k)) && nodupKeys ks

mutual

/-- Every object level of the value has distinct keys: true of every value
produced by `json.loads`, and of every Python dict whatever its origin. -/
def wfDict : Json → Bool
  | .obj kvs => nodupKeys (kvs.map Prod.fst) && wfDictPairs kvs
  | .arr xs => wfDictList xs
  | _ => true

/-- `wfDict` on the elements of an array. -/
def wfDictList : List Json → Bool
  | [] => true
  | x :: xs => wfDict x && wfDictList xs

/-- `wfDict` on the values of an object. -/
def wfDictPairs : List (Str × Json) → Bool
  | [] => true
  | p :: t => wfDict p.2 && wfDictPairs t

end

theorem dictHas_eq_any_map (kvs : List (Str × Json)) (k : Str) :
    dictHas kvs k = (kvs.map Prod.fst).any (fun x => x == k) := by
  induction kvs with
  | nil => rfl
  | cons p t ih => rw [dictHas_cons, List.map_cons, List.any_cons, ih]

theorem dictGet_some_has {kvs : List (Str × Json)} {k : Str} {v : Json}
    (h : dictGet kvs k = some v) : dictHas kvs k = true := by
  induction kvs with
  | nil => cases h
  | cons p t ih =>
    rw [dictGet_cons] at h
    rw [dictHas_cons]
    cases hp : (p.1 == k) with
    | true => rfl
    | false =>
      rw [hp] at h
      rw [Bool.false_or]
      exact ih (by simpa using h)

theorem dictGet_some_any {kvs : List (Str × Json)} {k : Str} {v : Json}
    (h : dictGet kvs k = some v) : kvs.any (fun p => p.1 == k) = true :=
  dictGet_some_has h

theorem fixOptions_cons (p : Str × Json) (t : List (Str × Json)) :
    fixOptions (p :: t)
      = (match p.2 with
         | .str _ => p
         | v => (p.1, Json.str (pyStr v))) :: fixOptions t := by
  simp [fixOptions]

theorem fixOptions_id {opts : List (Str × Json)}
    (h : ∀ p ∈ opts, isStrVal p.2 = true) : fixOptions opts = opts := by
  induction opts with
  | nil => rfl
  | cons p t ih =>
    obtain ⟨pk, pv⟩ := p
    have hp := h (pk, pv) (List.mem_cons_self _ _)
    cases pv with
    | str a =>
      rw [fixOptions_cons, ih (fun q hq => h q (List.mem_cons_of_mem _ hq))]
    | null => cases hp
    | bool b => cases hp
    | num n => cases hp
    | arr xs => cases hp
    | obj o => cases hp

theorem fixQuestion_of_absent {kvs : List (Str × Json)}
    (h : dictHas kvs "options".data = false) : fixQuestion kvs = kvs := by
  induction kvs with
  | nil => rfl
  | cons p t ih =>
    rw [dictHas_cons, Bool.or_eq_false_iff] at h
    rw [fixQuestion_cons, if_neg (by simp [h.1]), ih h.2]

theorem fixQuestion_id {kvs : List (Str × Json)} {opts : List (Str × Json)}
    (hnd : nodupKeys (kvs.map Prod.fst) = true)
    (hget : dictGet kvs "options".data = some (.obj opts))
    (hfix : fixOptions opts = opts) : fixQuestion kvs = kvs := by
  induction kvs with
  | nil => rfl
  | cons p t ih =>
    simp only [List.map_cons, nodupKeys, Bool.and_eq_true] at hnd
    obtain ⟨hnotin, hndt⟩ := hnd
    rw [dictGet_cons] at hget
    cases hp : (p.1 == "options".data) with
    | true =>
      rw [hp, if_pos rfl] at hget
      injection hget with hv
      have hpe : p.1 = "options".data := by simpa [beq_iff_eq] using hp
      have habs : dictHas t "options".data = false := by
        rw [← hpe, dictHas_eq_any_map]
        cases hb : (t.map Prod.fst).any (fun x => x == p.1) with
        | false => rfl
        | true => rw [hb] at hnotin; cases hnotin
      rw [fixQuestion_cons, if_pos (by simp [hp]),
        fixQuestion_of_absent habs]
      rw [hv]
      simp only [fixOptionsVal]
      rw [hfix, ← hv]
    | false =>
      rw [hp] at hget
      rw [fixQuestion_cons, if_neg (by simp [hp]),
        ih hndt (by simpa using hget)]

theorem map_insert_of_absent (kvs : List (Str × Json)) (k : Str) (v : Json)
    (h : dictHas kvs k = false) :
    kvs.map (fun p => if p.1 == k then (k, v) else p) = kvs := by
  induction kvs with
  | nil => rfl
  | cons p t ih =>
    rw [dictHas_cons, Bool.or_eq_false_iff] at h
    rw [List.map_cons, if_neg (by simp [h.1]), ih h.2]

theorem map_insert_id {kvs : List (Str × Json)} {k : Str} {v : Json}
    (hnd : nodupKeys (kvs.map Prod.fst) = true)
    (hget : dictGet kvs k = some v) :
    kvs.map (fun p => if p.1 == k then (k, v) else p) = kvs := by
  induction kvs with
  | nil => rfl
  | cons p t ih =>
    simp only [List.map_cons, nodupKeys, Bool.and_eq_true] at hnd
    obtain ⟨hnotin, hndt⟩ := hnd
    rw [dictGet_cons] at hget
    cases hp : (p.1 == k) with
    | true =>
      rw [hp, if_pos rfl] at hget
      injection hget with hv
      have hpe : p.1 = k := by simpa [beq_iff_eq] using hp
      have habs : dictHas t k = false := by
        rw [← hpe, dictHas_eq_any_map]
        cases hb : (t.map Prod.fst).any (fun x => x == p.1) with
        | false => rfl
        | true => rw [hb] at hnotin; cases hnotin
      rw [List.map_cons, if_pos (by simp [hp]),
        map_insert_of_absent t k v habs]
      have hpv : (k, v) = p := by
        rw [← hpe, ← hv]
      rw [hpv]
    | false =>
      rw [hp, if_neg (by simp)] at hget
      rw [List.map_cons, if_neg (by simp [hp]), ih hndt hget]

theorem dictInsert_id {kvs : List (Str × Json)} {k : Str} {v : Json}
    (hnd : nodupKeys (kvs.map Prod.fst) = true)
    (hget : dictGet kvs k = some v) : dictInsert kvs k v = kvs := by
  unfold dictInsert
  rw [dictGet_some_any hget, if_pos rfl]
  exact map_insert_id hnd hget

theorem wfDict_obj {kvs : List (Str × Json)} (h : wfDict (.obj kvs) = true) :
    nodupKeys (kvs.map Prod.fst) = true ∧ wfDictPairs kvs = true := by
  simpa only [wfDict, Bool.and_eq_true] using h

theorem wfDict_get {kvs : List (Str × Json)} {k : Str} {v : Json}
    (hw : wfDictPairs kvs = true) (hget : dictGet kvs k = some v) :
    wfDict v = true := by
  induction kvs with
  | nil => cases hget
  | cons p t ih =>
    simp only [wfDictPairs, Bool.and_eq_true] at hw
    rw [dictGet_cons] at hget
    cases hp : (p.1 == k) with
    | true =>
      rw [hp, if_pos rfl] at hget
      injection hget with hv
      rw [← hv]
      exact hw.1
    | false =>
      rw [hp, if_neg (by simp)] at hget
      exact ih hw.2 hget

theorem wfDict_arr_mem {xs : List Json} {q : Json}
    (hw : wfDictList xs = true) (hq : q ∈ xs) : wfDict q = true := by
  induction xs with
  | nil => cases hq
  | cons x t ih =>
    simp only [wfDictList, Bool.and_eq_true] at hw
    cases hq with
    | head => exact hw.1
    | tail _ h => exact ih hw.2 h

theorem specAnswerOk_sub {a : Str} (h : specAnswerOk a = true) :
    strSub a "ABCD".data = true := by
  simp only [specAnswerOk, Bool.or_eq_true, beq_iff_eq] at h
  rcases h with ((h | h) | h) | h <;> subst h <;> decide

theorem validateQuestion_id {q : Json}
    (hsh : questionShapeWith specAnswerOk q = true)
    (hw : wfDict q = true) : validateQuestion q = .ok q := by
  cases q with
  | obj kvs =>
    simp only [questionShapeWith, Bool.and_eq_true] at hsh
    obtain ⟨⟨hkq, hopts⟩, hans⟩ := hsh
    cases hget : dictGet kvs "options".data with
    | none => rw [hget] at hopts; cases hopts
    | some ov =>
      rw [hget] at hopts
      cases ov with
      | obj opts =>
        simp only [optionsShape, Bool.and_eq_true] at hopts
        obtain ⟨⟨⟨⟨⟨hlen, hA⟩, hB⟩, hC⟩, hD⟩, hall⟩ := hopts
        cases hansget : dictGet kvs "answer".data with
        | none => rw [hansget] at hans; cases hans
        | some av =>
          rw [hansget] at hans
          cases av with
          | str a =>
            have hans2 : specAnswerOk a = true := hans
            have hnd := (wfDict_obj hw).1
            have hkeys : (dictHas kvs "question".data &&
                dictHas kvs "options".data &&
                dictHas kvs "answer".data) = true := by
              simp [hkq, dictGet_some_has hget, dictGet_some_has hansget]
            have hcond2 : (opts.length == 4 && dictHas opts "A".data &&
                dictHas opts "B".data && dictHas opts "C".data &&
                dictHas opts "D".data) = true := by
              simp [hlen, hA, hB, hC, hD]
            have hfix : fixQuestion kvs = kvs :=
              fixQuestion_id hnd hget
                (fixOptions_id (List.all_eq_true.mp hall))
            simp [validateQuestion, hkeys, hget, hcond2, hansget,
              specAnswerOk_sub hans2, hfix]
          | null => cases hans
          | bool b => cases hans
          | num n => cases hans
          | arr xs => cases hans
          | obj o => cases hans
      | null => cases hopts
      | bool b => cases hopts
      | num n => cases hopts
      | str s => cases hopts
      | arr xs => cases hopts
  | null => cases hsh
  | bool b => cases hsh
  | num n => cases hsh
  | str s => cases hsh
  | arr xs => cases hsh

theorem validateQuestions_id {qs : List Json}
    (h : ∀ q ∈ qs, validateQuestion q = .ok q) :
    validateQuestions qs = .ok qs := by
  induction qs with
  | nil => rfl
  | cons q t ih =>
    simp [validateQuestions, h q (List.mem_cons_self _ _),
      ih (fun p hp => h p (List.mem_cons_of_mem _ hp))]

theorem validateQuiz_id {Q : Json} (hsh : specQuizShape Q = true)
    (hw : wfDict Q = true) : validateQuiz Q = .ok Q := by
  cases Q with
  | obj kvs =>
    simp only [specQuizShape, quizShapeWith] at hsh
    cases hget : dictGet kvs "questions".data with
    | none => rw [hget] at hsh; cases hsh
    | some qv =>
      rw [hget] at hsh
      cases qv with
      | arr qs =>
        simp only [Bool.and_eq_true] at hsh
        obtain ⟨hne, hall⟩ := hsh
        have hnd := (wfDict_obj hw).1
        have hwp := (wfDict_obj hw).2
        have hwarr : wfDict (.arr qs) = true := wfDict_get hwp hget
        have hwl : wfDictList qs = true := by simpa [wfDict] using hwarr
        have hvq : validateQuestions qs = .ok qs :=
          validateQuestions_id (fun q hq =>
            validateQuestion_id (List.all_eq_true.mp hall q hq)
              (wfDict_arr_mem hwl hq))
        have hemp : qs.isEmpty = false := by
          cases qs with
          | nil => cases hne
          | cons a t => rfl
        have hins : dictInsert kvs "questions".data (.arr qs) = kvs :=
          dictInsert_id hnd hget
        simp [validateQuiz, hget, hemp, hvq, hins]
      | null => cases hsh
      | bool b => cases hsh
      | num n => cases hsh
      | str s => cases hsh
      | obj o => cases hsh
  | null => cases hsh
  | bool b => cases hsh
  | num n => cases hsh
  | str s => cases hsh
  | arr xs => cases hsh

/-- A concrete quiz in the fully valid claimed shape (answer `A`). -/
def quizA : Json :=
  Json.obj [("questions".data, Json.arr [Json.obj
    [("question".data, Json.str "q".data),
     ("options".data, Json.obj
       [("A".data, Json.str "a".data), ("B".data, Json.str "b".data),
        ("C".data, Json.str "c".data), ("D".data, Json.str "d".data)]),
     ("answer".data, Json.str "A".data)]])]

/-- C2: for every quiz object Q already in the valid shape (non-empty
questions list, options exactly A-D with string values, answer in A-D,
keys distinct as in every Python dict), if the model response text is a
JSON serialization of Q, optionally surrounded by whitespace and wrapped
in a leading fence and a trailing fence, then the cleanup-and-parse step
of `generate_quiz_json` recovers and returns exactly Q.  The first
conjunct is the fenced wrapping, the second the bare one. -/
theorem generate_quiz_json_roundtrip (Q : Json) (s ws1 ws2 ws3 ws4 : Str)
    (h1 : ∀ c ∈ ws1, isPySpace c = true) (h2 : ∀ c ∈ ws2, isPySpace c = true)
    (h3 : ∀ c ∈ ws3, isPySpace c = true) (h4 : ∀ c ∈ ws4, isPySpace c = true)
    (hparse : loads s = some Q) (hwf : wfDict Q = true)
    (hshape : specQuizShape Q = true)
    (hs : s.head? = some lbrace) (hl : s.getLast? = some rbrace) :
    generate_quiz_json true (.ok (ws1 ++ (fenceOpen ++ (ws2 ++
        (s ++ (ws3 ++ (fenceClose ++ ws4))))))) = Q ∧
      generate_quiz_json true (.ok (ws1 ++ (s ++ ws2))) = Q := by
  have hv : validateQuiz Q = .ok Q := validateQuiz_id hshape hwf
  constructor
  · simp [generate_quiz_json,
      cleanQuizText_fenced ws1 ws2 ws3 ws4 s h1 h2 h3 h4 hs hl, hparse, hv]
  · simp [generate_quiz_json,
      cleanQuizText_plain ws1 ws2 s h1 h2 hs hl, hparse, hv]

/-- C2 (witness): the round trip at the concrete quiz `quizA`, serialized
by `dumps`, wrapped in the markdown fence with newlines and flanked by
spaces. -/
theorem generate_quiz_json_roundtrip_witness :
    loads (dumps quizA) = some quizA ∧ specQuizShape quizA = true ∧
      generate_quiz_json true (.ok ([' '] ++ (fenceOpen ++ (['\n'] ++
        (dumps quizA ++ (['\n'] ++ (fenceClose ++ [' ']))))))) = quizA :=
  ⟨rfl, rfl,
    (generate_quiz_json_roundtrip quizA (dumps quizA) [' '] ['\n'] ['\n']
      [' '] (by decide) (by decide) (by decide) (by decide)
      rfl rfl rfl rfl rfl).1⟩

-- =====================================================================
-- src/app/routes.py: the API routes the claims are about
-- =====================================================================

/-- Is the value the Python `None`? (`data.get(k)` yields `None` both for a
missing key and for an explicit JSON null.) -/
def isNull : Json → Bool
  | .null => true
  | _ => false

/-- A rendered Flask response: HTTP status code plus the `jsonify` payload
(`Json.null` stands for a non-JSON response such as a redirect). -/
structure ApiResponse where
  status : Nat
  payload : Json

/-- src/app/routes.py lines 357-388, `generate_quiz_api`.  `available`
models `callable(generate_quiz_func)`; `outcome` the call of the bound
generator, `.error` when it raises and `.ok` the returned value. -/
def generate_quiz_api (loggedIn : Bool) (isJson : Bool)
    (body : List (Str × Json)) (available : Bool)
    (outcome : Except Unit Json) : ApiResponse :=
  if !loggedIn then ⟨401, errObj "Authentication required.".data⟩
  else if !isJson then ⟨400, errObj "Missing JSON in request".data⟩
  else
    let topic := (dictGet body "topic".data).getD Json.null
    if !pyTruthy topic then
      ⟨400, errObj "Missing \x27topic\x27 in request.".data⟩
    else if !available then
      ⟨500, errObj "Quiz generation not available.".data⟩
    else
      match outcome with
      | .error _ => ⟨500, errObj "Quiz generation failed.".data⟩
      | .ok quizData =>
        if isErrorDict quizData then ⟨500, quizData⟩
        else ⟨200, quizData⟩

/-- A row of the `quiz_history` table (src/app/models.py lines 111-132);
`percentage` is modelled exactly over the rationals. -/
structure QuizHistoryRow where
  user_id : Int
  topic : Json
  score : Int
  total_questions : Int
  percentage : Rat
  results_detail : Str

/-- The observable outcome of `save_quiz_results`: response and the
resulting table contents. -/
structure SaveResult where
  status : Nat
  payload : Json
  db : List QuizHistoryRow

/-- src/app/routes.py lines 390-432, `save_quiz_results`.  `commitOk`
models whether `db.session.add` + `commit` succeed; on any exception the
session is rolled back, so the table is returned unchanged.  Status 302 is
the redirect for an anonymous caller. -/
def save_quiz_results (loggedIn : Bool) (userId : Int) (isJson : Bool)
    (body : List (Str × Json)) (db : List QuizHistoryRow)
    (commitOk : Bool) : SaveResult :=
  if !loggedIn then ⟨302, Json.null, db⟩
  else if !isJson then ⟨400, errObj "Missing JSON in request".data, db⟩
  else
    let topic := (dictGet body "topic".data).getD Json.null
    let score := (dictGet body "score".data).getD Json.null
    let total := (dictGet body "total".data).getD Json.null
    let detail := (dictGet body "detail".data).getD Json.null
    if isNull topic || isNull score || isNull total || isNull detail then
      ⟨400, errObj "Missing required quiz result data.".data, db⟩
    else
      match pyInt score, pyInt total with
      | some sc, some tot =>
        if commitOk then
          let percentage : Rat :=
            if tot > 0 then (sc : Rat) / (tot : Rat) * 100 else 0
          ⟨200,
           Json.obj [("success".data, .bool true),
             ("message".data, .str "Quiz results saved successfully.".data)],
           db ++ [⟨userId, topic, sc, tot, percentage, dumps detail⟩]⟩
        else
          ⟨500,
           Json.obj [("success".data, .bool false),
             ("error".data, .str "Failed to save results.".data)], db⟩
      | _, _ =>
        ⟨500,
         Json.obj [("success".data, .bool false),
           ("error".data, .str "Failed to save results.".data)], db⟩

/-- src/modules/text_generation.py lines 206-259,
`generate_complete_notes`: configuration check, Gemini call, blocked-or-
empty check, and on success the dict with title, markdown and success
flag.  The embedded exception text is elided. -/
def generate_complete_notes (configured : Bool) (topic : Json)
    (resp : GeminiResp) : Json :=
  if !configured then
    errObj "AI service not configured (missing or invalid API key).".data
  else
    match resp with
    | .raises => errObj "Failed to generate structured notes.".data
    | .blocked _ =>
      errObj "AI notes generation blocked or returned empty content.".data
    | .blockedNoFeedback =>
      errObj "AI notes generation blocked or returned empty content.".data
    | .ok text =>
      Json.obj [("title".data, topic),
        ("content_markdown".data, .str text),
        ("success".data, .bool true)]

/-- Modelled from the spec: `modules.document_generator` is imported by
src/app/routes.py line 9 but its module is not under src/.  The spec says
notes are exported as a saved DOCX document; the route only inspects
whether the returned path string starts with `Error:`, so the generator is
modelled as an oracle whose outcome string is supplied by the caller. -/
def create_and_save_document (outcome : Str) : Str := outcome

/-- Modelled from the spec: `document_generator.get_file_name` (module not
under src/) produces the client-facing file name for a topic and an
extension. -/
def get_file_name (topic : Str) (ext : Str) : Str := topic ++ ('.' :: ext)

/-- Bounded-fuel body of Python `str.replace` (all occurrences). -/
def pyReplaceAux : Nat → Str → Str → Str → Str
  | 0, s, _, _ => s
  | fuel + 1, s, pat, repl =>
    match s with
    | [] => []
    | c :: rest =>
      if !pat.isEmpty && strStarts pat s then
        repl ++ pyReplaceAux fuel (s.drop pat.length) pat repl
      else c :: pyReplaceAux fuel rest pat repl

/-- Python `s.replace(pat, repl)` for a non-empty pattern. -/
def pyReplace (s pat repl : Str) : Str := pyReplaceAux s.length s pat repl

/-- The download URL the route builds:
`url_for('static', filename=path.replace('static/', ''))`; the scheme and
host of the external URL are elided. -/
def staticUrl (path : Str) : Str :=
  "/static/".data ++ pyReplace path "static/".data []

/-- src/app/routes.py lines 549-610, `generate_notes_api`.  The
`hasattr(text_generation, 'generate_complete_notes')` guard is statically
true (the function is defined in src/modules/text_generation.py) and is
omitted.  `docResult` is the outcome of the spec-modelled document
generator. -/
def generate_notes_api (loggedIn : Bool) (isJson : Bool)
    (body : List (Str × Json)) (configured : Bool) (notesResp : GeminiResp)
    (docResult : Str) : ApiResponse :=
  if !loggedIn then ⟨401, errObj "Authentication required.".data⟩
  else if !isJson then ⟨400, errObj "Request must be JSON".data⟩
  else
    let topic := (dictGet body "topic".data).getD Json.null
    if !pyTruthy topic then
      ⟨400, errObj "Missing \x27topic\x27 in request.".data⟩
    else
      let ai := generate_complete_notes configured topic notesResp
      let aiPairs := match ai with | .obj kvs => kvs | _ => []
      if !pyTruthy ((dictGet aiPairs "success".data).getD Json.null) then
        ⟨500, Json.obj [("error".data,
          (dictGet aiPairs "error".data).getD
            (.str "AI returned error.".data))]⟩
      else
        let md := (dictGet aiPairs "content_markdown".data).getD
          (Json.str [])
        let doc := create_and_save_document docResult
        if strStarts "Error:".data doc then
          ⟨500, Json.obj [("error".data, .str doc)]⟩
        else
          ⟨200, Json.obj [("success".data, .bool true),
            ("title".data, topic),
            ("filename".data, .str (get_file_name (pyStr topic)
              "docx".data)),
            ("download_url".data, .str (staticUrl doc)),
            ("content_markdown".data, md)]⟩

-- =====================================================================
-- src/app/models.py: the User model and password handling (claims C5, C9)
-- =====================================================================

/-- An injective encoding of a string as a number, the stand-in for the
one-way digest inside the password hash. -/
def strCode (s : Str) : Nat :=
  s.foldl (fun a c => a * 1114112 + c.toNat + 1) 0

/-- Behavioural model of werkzeug (third party, not repository code)
`generate_password_hash`: a deterministic tagged digest standing in for
the salted PBKDF2 hash. -/
def generate_password_hash (password : Str) : Str :=
  "pbkdf2:sha256$".data ++ (toString (strCode password)).data

/-- Behavioural model of werkzeug `check_password_hash`: recompute and
compare, so checking succeeds exactly for the hashed password. -/
def check_password_hash (h : Str) (password : Str) : Bool :=
  h == generate_password_hash password

/-- The keyword arguments the `User` constructor receives (`none` models an
absent keyword). -/
structure UserKwargs where
  first_name : Option Str := none
  last_name : Option Str := none
  username : Option Str := none
  dob : Option Str := none
  email : Option Str := none
  password : Option Str := none

/-- A transient `User` model object: the column attributes before the row
is flushed (`none` = attribute not set). -/
structure UserObj where
  first_name : Option Str
  last_name : Option Str
  username : Option Str
  dob : Option Str
  email : Option Str
  profile_pic : Option Str
  password_hash : Option Str

/-- src/app/models.py lines 61-65, `User.set_password`. -/
def set_password (u : UserObj) (password : Str) : UserObj :=
  { u with password_hash := some (generate_password_hash password) }

/-- src/app/models.py lines 67-69, `User.check_password` (an unset hash is
never exercised by the claims; it is modelled as a failed check). -/
def check_password (u : UserObj) (password : Str) : Bool :=
  match u.password_hash with
  | some h => check_password_hash h password
  | none => false

/-- `first_name.lower()` (ASCII). -/
def pyLower (s : Str) : Str := s.map Char.toLower

/-- `join(c for c in s.lower() if c.isalnum())` from the constructor. -/
def sanitizeName (s : Str) : Str := (pyLower s).filter Char.isAlphanum

/-- src/app/models.py lines 37-57, the defensive `User.__init__`:
pop `password`, generate a username when none is given (from the sanitized
first name, defaulting to `user`, plus a uuid4-derived suffix supplied by
the environment), build the object, then hash the password only when the
popped value is truthy (line 56 reads `if raw_password:`, so a missing,
None or empty-string password leaves `password_hash` unset). -/
def User.init (kw : UserKwargs) (uuidSuffix : Str) : UserObj :=
  let uname : Str :=
    match kw.username with
    | some u => u
    | none =>
      let fn := kw.first_name.getD "user".data
      sanitizeName fn ++ ('_' :: uuidSuffix)
  let base : UserObj :=
    { first_name := kw.first_name, last_name := kw.last_name,
      username := some uname, dob := kw.dob, email := kw.email,
      profile_pic := none, password_hash := none }
  match kw.password with
  | some p => if !p.isEmpty then set_password base p else base
  | none => base

-- =====================================================================
-- src/app/routes.py: login (claim C5)
-- =====================================================================

/-- A persisted user row as the login route reads it. -/
structure DbUser where
  id : Int
  email : Str
  password_hash : Str

/-- Where the login route sends the browser. -/
inductive Page where
  | redirectDashboard
  | redirectWelcome
  | renderLogin

/-- The observable outcome of a POST to the login route: the session user
id after the request, the flashed message, and the page. -/
structure LoginResult where
  sessionUserId : Option Int
  flash : Option (Str × Str)
  page : Page

/-- src/app/routes.py lines 232-247, the POST branch of `login`:
`User.query.filter_by(email=...).first()` is the first stored user with
the submitted email; `check_password` compares against the stored hash. -/
def login (sessionUser : Option Int) (users : List DbUser)
    (email pw : Str) : LoginResult :=
  if sessionUser.isSome then ⟨sessionUser, none, .redirectDashboard⟩
  else
    match users.find? (fun u => u.email == email) with
    | some u =>
      if check_password_hash u.password_hash pw then
        ⟨some u.id, some ("Login successful!".data, "success".data),
         .redirectWelcome⟩
      else
        ⟨none, some ("Invalid email or password.".data, "danger".data),
         .renderLogin⟩
    | none =>
      ⟨none, some ("Invalid email or password.".data, "danger".data),
       .renderLogin⟩

-- =====================================================================
-- src/app/routes.py: get_answer (claim C7)
-- =====================================================================

/-- The page a POST to `get_answer` produces. -/
inductive AnswerPage where
  | redirectLogin
  | redirectTutor (flash : Str × Str)
  | lesson (query : Str) (text : Str) (audio : Option Str)
      (videos : List Str) (images : List Str)

/-- The fixed fallback answer of the text-generation handler. -/
def fallbackAnswer : Str :=
  "Sorry, I couldn\x27t generate an answer at this time.".data

/-- src/app/routes.py lines 166-206, `get_answer`.  Each sub-service call
is an oracle: `.error` models a raised exception.  `audioR` receives the
computed text answer, as `generate_audio(text_answer)` does; video and
image search may return `none` (Python None), mapped to `[]` by the
`or []` in the code. -/
def get_answer (loggedIn : Bool) (query : Option Str)
    (textR : Except Unit Str) (audioR : Str → Except Unit (Option Str))
    (videoR : Except Unit (Option (List Str)))
    (imageR : Except Unit (Option (List Str))) : AnswerPage :=
  if !loggedIn then .redirectLogin
  else
    match query with
    | none => .redirectTutor ("A question is required.".data, "danger".data)
    | some q =>
      if q.isEmpty then
        .redirectTutor ("A question is required.".data, "danger".data)
      else
        let text := match textR with
          | .ok t => t
          | .error _ => fallbackAnswer
        let audio := match audioR text with
          | .ok a => a
          | .error _ => none
        let videos := match videoR with
          | .ok v => v.getD []
          | .error _ => []
        let images := match imageR with
          | .ok v => v.getD []
          | .error _ => []
        .lesson q text audio videos images

/-- Was a lesson page rendered? -/
def isLesson : AnswerPage → Bool
  | .lesson _ _ _ _ _ => true
  | _ => false

/-- The text of a lesson page, if one was rendered. -/
def pageText : AnswerPage → Option Str
  | .lesson _ t _ _ _ => some t
  | _ => none

/-- The audio URL of a lesson page, if one was rendered. -/
def pageAudio : AnswerPage → Option (Option Str)
  | .lesson _ _ a _ _ => some a
  | _ => none

/-- The video list of a lesson page, if one was rendered. -/
def pageVideos : AnswerPage → Option (List Str)
  | .lesson _ _ _ v _ => some v
  | _ => none

/-- The image list of a lesson page, if one was rendered. -/
def pageImages : AnswerPage → Option (List Str)
  | .lesson _ _ _ _ i => some i
  | _ => none

-- =====================================================================
-- src/modules/text_generation.py: generate_text_answer (claim C8)
-- =====================================================================

/-- The outcome of the Custom Search HTTP request as the code observes it:
an `HTTPError` from `raise_for_status`, another `RequestException`, any
other exception, or a parsed JSON body. -/
inductive SearchOutcome where
  | httpError (msg : Str)
  | netError (msg : Str)
  | otherError (msg : Str)
  | ok (results : Json)

/-- Python `x in v` for a string `x` and a parsed-JSON `v`; `none` models
the `TypeError` raised when `v` is not a container (caught by the generic
handler). -/
def pyContains (v : Json) (x : Str) : Option Bool :=
  match v with
  | .obj kvs => some (dictHas kvs x)
  | .arr xs => some (xs.any (fun e =>
      match e with
      | .str s => s == x
      | _ => false))
  | .str s => some (strSub x s)
  | _ => none

/-- Python `v[k]` for a string key; `none` models the raised
`TypeError`/`KeyError`. -/
def pySubscript (v : Json) (k : Str) : Option Json :=
  match v with
  | .obj kvs => dictGet kvs k
  | _ => none

/-- The link-emoji character (U+1F517) the summary lines embed. -/
def linkEmoji : Char := Char.ofNat 128279

/-- One summary block: `**title**\nsnippet\n(link emoji) link\n` with the
`.get` defaults of the code. -/
def summaryOf (kvs : List (Str × Json)) : Str :=
  let title := pyStr ((dictGet kvs "title".data).getD
    (.str "No Title".data))
  let snippet := pyStr ((dictGet kvs "snippet".data).getD
    (.str "No Description".data))
  let link := pyStr ((dictGet kvs "link".data).getD (.str []))
  "**".data ++ title ++ "**\n".data ++ snippet ++ "\n".data ++
    [linkEmoji, ' '] ++ link ++ "\n".data

/-- The loop body over the sliced items; `none` models the
`AttributeError` raised by `.get` on a non-dict item. -/
def summariesOf : List Json → Option (List Str)
  | [] => some []
  | item :: rest =>
    match item with
    | .obj kvs => (summariesOf rest).map (fun l => summaryOf kvs :: l)
    | _ => none

/-- The fixed no-results reply (quoted verbatim by the claim). -/
def noResultsMsg : Str := "No results found from Google Search.".data

/-- The configuration-error reply. -/
def notConfiguredMsg : Str :=
  ("Google Search API not configured properly. ".data ++
   "Check GOOGLE_API_KEY and GOOGLE_CX_ID.".data)

/-- src/modules/text_generation.py lines 45-89, `generate_text_answer`.
Every branch returns a string; the generic exception handler catches the
container-shape errors (`none` results of the helpers).  The embedded
exception text is elided. -/
def generate_text_answer (configured : Bool) (outcome : SearchOutcome) :
    Str :=
  if !configured then notConfiguredMsg
  else
    match outcome with
    | .httpError m =>
      "Error fetching data from Google Search (HTTP Error): ".data ++ m
    | .netError m =>
      "Error fetching data from Google Search (Network Error): ".data ++ m
    | .otherError m =>
      "Error fetching data from Google Search: ".data ++ m
    | .ok results =>
      match pyContains results "items".data with
      | none => "Error fetching data from Google Search: TypeError".data
      | some has =>
        if !has then noResultsMsg
        else
          match pySubscript results "items".data with
          | none => "Error fetching data from Google Search: TypeError".data
          | some items =>
            if !pyTruthy items then noResultsMsg
            else
              match items with
              | .arr xs =>
                match summariesOf (xs.take 3) with
                | none =>
                  "Error fetching data from Google Search: AttributeError".data
                | some l =>
                  joinSep "\n\n".data ("**Top Search Results:**".data :: l)
              | _ =>
                "Error fetching data from Google Search: TypeError".data

-- =====================================================================
-- src/app/routes.py: complete_video (claim C10)
-- =====================================================================

/-- A user row as `complete_video` reads and writes it: the column
attributes plus the `completed_videos` relationship (video ids). -/
structure TutorUser where
  id : Int
  first_name : Str
  last_name : Str
  username : Str
  dob : Str
  email : Str
  profile_pic : Str
  password_hash : Str
  completed_videos : List Int

/-- The outcome of a POST to `complete_video`. -/
inductive CompleteResult where
  | redirectLogin
  | notFound
  | done (user : TutorUser) (flashed : Bool) (courseId : Int)

/-- src/app/routes.py lines 524-538, `complete_video`: 404 unless the
video exists (`videos` maps video id to course id), append the video to
the user completion list only when absent, flash on change, and redirect
to the course page. -/
def complete_video (loggedIn : Bool) (videos : List (Int × Int))
    (user : TutorUser) (vid : Int) : CompleteResult :=
  if !loggedIn then .redirectLogin
  else
    match videos.find? (fun v => v.1 == vid) with
    | none => .notFound
    | some v =>
      if user.completed_videos.any (fun x => x == vid) then
        .done user false v.2
      else
        .done { user with
          completed_videos := user.completed_videos ++ [vid] } true v.2

/-- The user state after a POST to `complete_video` (unchanged when the
request never reaches the update). -/
def completeVideoUser (videos : List (Int × Int)) (user : TutorUser)
    (vid : Int) : TutorUser :=
  match complete_video true videos user vid with
  | .done u _ _ => u
  | _ => user

-- =====================================================================
-- Claim C6: generate_quiz_api
-- =====================================================================

/-- C6 (counterexample): a logged-in JSON request whose `topic` key is
present but holds the empty string gets status 400, although the
generator is available and returns a valid quiz; the claim reserves 400
for a non-JSON body or a missing topic and promises the generator data
with 200 otherwise. -/
theorem generate_quiz_api_claim_false :
    dictHas [("topic".data, Json.str [])] "topic".data = true ∧
      (generate_quiz_api true true [("topic".data, Json.str [])] true
        (.ok quizA)).status = 400 :=
  ⟨rfl, rfl⟩

/-- C6 (amended): for every request to `generate_quiz_api`: with no user
id in the session it returns 401; with a non-JSON body, or a topic that
is missing or falsy (for example the empty string), it returns 400; if
the quiz-generation function is unavailable or raises it returns 500; if
the generator returns a dict containing the key `error` it returns that
dict with status 500; otherwise it returns the generator quiz data
unchanged with status 200. -/
theorem generate_quiz_api_cases (loggedIn isJson : Bool)
    (body : List (Str × Json)) (available : Bool)
    (outcome : Except Unit Json) :
    (loggedIn = false →
      generate_quiz_api loggedIn isJson body available outcome
        = ⟨401, errObj "Authentication required.".data⟩) ∧
    (loggedIn = true → isJson = false →
      generate_quiz_api loggedIn isJson body available outcome
        = ⟨400, errObj "Missing JSON in request".data⟩) ∧
    (loggedIn = true → isJson = true →
      pyTruthy ((dictGet body "topic".data).getD Json.null) = false →
      (generate_quiz_api loggedIn isJson body available outcome).status
        = 400) ∧
    (loggedIn = true → isJson = true →
      pyTruthy ((dictGet body "topic".data).getD Json.null) = true →
      available = false →
      (generate_quiz_api loggedIn isJson body available outcome).status
        = 500) ∧
    (loggedIn = true → isJson = true →
      pyTruthy ((dictGet body "topic".data).getD Json.null) = true →
      available = true → outcome = .error () →
      (generate_quiz_api loggedIn isJson body available outcome).status
        = 500) ∧
    (∀ qd, loggedIn = true → isJson = true →
      pyTruthy ((dictGet body "topic".data).getD Json.null) = true →
      available = true → outcome = .ok qd → isErrorDict qd = true →
      generate_quiz_api loggedIn isJson body available outcome
        = ⟨500, qd⟩) ∧
    (∀ qd, loggedIn = true → isJson = true →
      pyTruthy ((dictGet body "topic".data).getD Json.null) = true →
      available = true → outcome = .ok qd → isErrorDict qd = false →
      generate_quiz_api loggedIn isJson body available outcome
        = ⟨200, qd⟩) := by
  refine ⟨?_, ?_, ?_, ?_, ?_, ?_, ?_⟩
  · intro h
    subst h
    rfl
  · intro h1 h2
    subst h1
    subst h2
    rfl
  · intro h1 h2 h3
    subst h1
    subst h2
    simp [generate_quiz_api, h3]
  · intro h1 h2 h3 h4
    subst h1
    subst h2
    subst h4
    simp [generate_quiz_api, h3]
  · intro h1 h2 h3 h4 h5
    subst h1
    subst h2
    subst h4
    subst h5
    simp [generate_quiz_api, h3]
  · intro qd h1 h2 h3 h4 h5 h6
    subst h1
    subst h2
    subst h4
    subst h5
    simp [generate_quiz_api, h3, h6]
  · intro qd h1 h2 h3 h4 h5 h6
    subst h1
    subst h2
    subst h4
    subst h5
    simp [generate_quiz_api, h3, h6]

/-- C6 (witness): a complete happy-path request at concrete values. -/
theorem generate_quiz_api_cases_witness :
    generate_quiz_api true true [("topic".data, Json.str "math".data)] true
      (.ok quizA) = ⟨200, quizA⟩ :=
  (generate_quiz_api_cases true true
      [("topic".data, Json.str "math".data)] true (.ok quizA)).2.2.2.2.2.2
    quizA rfl rfl rfl rfl rfl rfl

-- =====================================================================
-- Claim C3: save_quiz_results
-- =====================================================================

/-- C3: for every logged-in JSON request to `save_quiz_results`: a missing
(or null) topic, score, total or detail yields 400 with the table
unchanged; a failed integer conversion, or a failed insert/commit, yields
a rollback (table unchanged) and 500 with success false; otherwise exactly
one row is appended whose percentage is score/total*100 when total > 0 and
0 otherwise (the guard mirrors the code, whose division is syntactically
under `total > 0`), and the route returns 200 with success true. -/
theorem save_quiz_results_spec (userId : Int) (body : List (Str × Json))
    (db : List QuizHistoryRow) (commitOk : Bool) :
    ((isNull ((dictGet body "topic".data).getD Json.null) ||
      isNull ((dictGet body "score".data).getD Json.null) ||
      isNull ((dictGet body "total".data).getD Json.null) ||
      isNull ((dictGet body "detail".data).getD Json.null)) = true →
      (save_quiz_results true userId true body db commitOk).status = 400 ∧
      (save_quiz_results true userId true body db commitOk).db = db) ∧
    ((isNull ((dictGet body "topic".data).getD Json.null) ||
      isNull ((dictGet body "score".data).getD Json.null) ||
      isNull ((dictGet body "total".data).getD Json.null) ||
      isNull ((dictGet body "detail".data).getD Json.null)) = false →
      ((pyInt ((dictGet body "score".data).getD Json.null) = none ∨
        pyInt ((dictGet body "total".data).getD Json.null) = none) →
        save_quiz_results true userId true body db commitOk
          = ⟨500, Json.obj [("success".data, .bool false),
              ("error".data, .str "Failed to save results.".data)], db⟩) ∧
      (∀ sc tot : Int,
        pyInt ((dictGet body "score".data).getD Json.null) = some sc →
        pyInt ((dictGet body "total".data).getD Json.null) = some tot →
        (commitOk = false →
          save_quiz_results true userId true body db commitOk
            = ⟨500, Json.obj [("success".data, .bool false),
                ("error".data, .str "Failed to save results.".data)], db⟩) ∧
        (commitOk = true →
          save_quiz_results true userId true body db commitOk
            = ⟨200, Json.obj [("success".data, .bool true),
                ("message".data,
                 .str "Quiz results saved successfully.".data)],
               db ++ [⟨userId, (dictGet body "topic".data).getD Json.null,
                 sc, tot,
                 (if tot > 0 then (sc : Rat) / (tot : Rat) * 100 else 0),
                 dumps ((dictGet body "detail".data).getD Json.null)⟩]⟩)))
    := by
  constructor
  · intro hmiss
    constructor <;> simp [save_quiz_results, hmiss]
  · intro hmiss
    constructor
    · intro hconv
      cases hconv with
      | inl h => simp [save_quiz_results, hmiss, h]
      | inr h => simp [save_quiz_results, hmiss, h]
    · intro sc tot hsc htot
      constructor
      · intro hc
        subst hc
        simp [save_quiz_results, hmiss, hsc, htot]
      · intro hc
        subst hc
        simp [save_quiz_results, hmiss, hsc, htot]

/-- C3 (witness): a concrete successful save appending one row with
percentage 3/5*100. -/
theorem save_quiz_results_spec_witness :
    save_quiz_results true 1 true
        [("topic".data, Json.str "m".data), ("score".data, Json.num 3),
         ("total".data, Json.num 5), ("detail".data, Json.arr [])]
        [] true
      = ⟨200, Json.obj [("success".data, .bool true),
          ("message".data, .str "Quiz results saved successfully.".data)],
         [⟨1, Json.str "m".data, 3, 5, 60, dumps (Json.arr [])⟩]⟩ := by
  have h := ((save_quiz_results_spec 1
      [("topic".data, Json.str "m".data), ("score".data, Json.num 3),
       ("total".data, Json.num 5), ("detail".data, Json.arr [])]
      [] true).2 rfl).2 3 5 rfl rfl
  have h2 := h.2 rfl
  rw [h2]
  have hp : (if (5 : Int) > 0 then ((3 : Int) : Rat) / ((5 : Int) : Rat)
      * 100 else 0) = 60 := by
    rw [if_pos (by norm_num)]
    norm_num
  rw [hp]
  rfl

-- =====================================================================
-- Claim C4: generate_notes_api
-- =====================================================================

/-- C4: for every logged-in JSON request with a truthy topic,
`generate_notes_api` generates the markdown via `generate_complete_notes`,
saves a DOCX document through the (spec-modelled) document generator, and
returns 200 with success true, the topic as title, a download URL, a
filename, and `content_markdown` equal to the generated markdown; a
missing topic returns 400, a non-JSON request returns 400, an anonymous
request 401, and an AI failure or a document-generator result starting
with `Error:` returns 500. -/
theorem generate_notes_api_spec (loggedIn isJson : Bool)
    (body : List (Str × Json)) (configured : Bool) (notesResp : GeminiResp)
    (docResult : Str) :
    (loggedIn = false →
      (generate_notes_api loggedIn isJson body configured notesResp
        docResult).status = 401) ∧
    (loggedIn = true → isJson = false →
      generate_notes_api loggedIn isJson body configured notesResp docResult
        = ⟨400, errObj "Request must be JSON".data⟩) ∧
    (loggedIn = true → isJson = true →
      pyTruthy ((dictGet body "topic".data).getD Json.null) = false →
      (generate_notes_api loggedIn isJson body configured notesResp
        docResult).status = 400) ∧
    (loggedIn = true → isJson = true →
      pyTruthy ((dictGet body "topic".data).getD Json.null) = true →
      (configured = false ∨ notesResp = .raises ∨
        (∃ r, notesResp = .blocked r) ∨ notesResp = .blockedNoFeedback) →
      (generate_notes_api loggedIn isJson body configured notesResp
        docResult).status = 500) ∧
    (∀ text, loggedIn = true → isJson = true →
      pyTruthy ((dictGet body "topic".data).getD Json.null) = true →
      configured = true → notesResp = .ok text →
      strStarts "Error:".data docResult = true →
      generate_notes_api loggedIn isJson body configured notesResp docResult
        = ⟨500, Json.obj [("error".data, .str docResult)]⟩) ∧
    (∀ text, loggedIn = true → isJson = true →
      pyTruthy ((dictGet body "topic".data).getD Json.null) = true →
      configured = true → notesResp = .ok text →
      strStarts "Error:".data docResult = false →
      generate_notes_api loggedIn isJson body configured notesResp docResult
        = ⟨200, Json.obj [("success".data, .bool true),
            ("title".data, (dictGet body "topic".data).getD Json.null),
            ("filename".data, .str (get_file_name
              (pyStr ((dictGet body "topic".data).getD Json.null))
              "docx".data)),
            ("download_url".data, .str (staticUrl docResult)),
            ("content_markdown".data, .str text)]⟩) := by
  refine ⟨?_, ?_, ?_, ?_, ?_, ?_⟩
  · intro h
    subst h
    rfl
  · intro h1 h2
    subst h1
    subst h2
    rfl
  · intro h1 h2 h3
    subst h1
    subst h2
    simp [generate_notes_api, h3]
  · intro h1 h2 h3 hfail
    subst h1
    subst h2
    rcases hfail with hc | hr | ⟨r, hb⟩ | hb
    · subst hc
      simp [generate_notes_api, generate_complete_notes, h3, errObj]
      try rfl
    · subst hr
      cases configured <;>
        simp [generate_notes_api, generate_complete_notes, h3, errObj] <;>
        try rfl
    · subst hb
      cases configured <;>
        simp [generate_notes_api, generate_complete_notes, h3, errObj] <;>
        try rfl
    · subst hb
      cases configured <;>
        simp [generate_notes_api, generate_complete_notes, h3, errObj] <;>
        try rfl
  · intro text h1 h2 h3 h4 h5 h6
    subst h1
    subst h2
    subst h4
    subst h5
    simp +decide [generate_notes_api, generate_complete_notes, h3, h6,
      create_and_save_document, dictGet_cons]
  · intro text h1 h2 h3 h4 h5 h6
    subst h1
    subst h2
    subst h4
    subst h5
    simp +decide [generate_notes_api, generate_complete_notes, h3, h6,
      create_and_save_document, dictGet_cons]

/-- C4 (witness): a concrete happy-path request for topic `math`, a model
response `# notes`, and a document saved at `static/docs/math.docx`. -/
theorem generate_notes_api_spec_witness :
    generate_notes_api true true [("topic".data, Json.str "math".data)]
        true (.ok "# notes".data) "static/docs/math.docx".data
      = ⟨200, Json.obj [("success".data, .bool true),
          ("title".data, Json.str "math".data),
          ("filename".data, .str "math.docx".data),
          ("download_url".data, .str "/static/docs/math.docx".data),
          ("content_markdown".data, .str "# notes".data)]⟩ := by
  have h := (generate_notes_api_spec true true
      [("topic".data, Json.str "math".data)] true (.ok "# notes".data)
      "static/docs/math.docx".data).2.2.2.2.2
    "# notes".data rfl rfl rfl rfl rfl rfl
  rw [h]
  rfl

-- =====================================================================
-- Claim C5: login
-- =====================================================================

/-- C5: for a POST to the login route by an anonymous user whose stored
emails are pairwise distinct (the column is declared unique), the route
sets the session user id to the matched user id and redirects to the
welcome page if and only if some stored user has the submitted email and
`check_password` succeeds against that user hash; otherwise the session
gains no user id, `Invalid email or password.` is flashed with category
danger, and the login page is re-rendered. -/
theorem login_spec (users : List DbUser) (email pw : Str)
    (hnd : (users.map DbUser.email).Nodup) :
    ((∃ u ∈ users, u.email = email ∧
        check_password_hash u.password_hash pw = true) ↔
      (∃ u ∈ users, u.email = email ∧
        check_password_hash u.password_hash pw = true ∧
        login none users email pw
          = ⟨some u.id, some ("Login successful!".data, "success".data),
             .redirectWelcome⟩)) ∧
    ((¬ ∃ u ∈ users, u.email = email ∧
        check_password_hash u.password_hash pw = true) →
      login none users email pw
        = ⟨none, some ("Invalid email or password.".data, "danger".data),
           .renderLogin⟩) := by
  cases hf : users.find? (fun u => u.email == email) with
  | none =>
    have hnone : ∀ u ∈ users, u.email ≠ email := by
      intro u hu
      have := List.find?_eq_none.mp hf u hu
      simpa [beq_iff_eq] using this
    constructor
    · constructor
      · rintro ⟨u, hu, he, _⟩
        exact absurd he (hnone u hu)
      · rintro ⟨u, hu, he, _⟩
        exact absurd he (hnone u hu)
    · intro _
      simp [login, hf]
  | some u =>
    have hue : u.email = email := by
      simpa [beq_iff_eq] using List.find?_some hf
    have humem : u ∈ users := List.mem_of_find?_eq_some hf
    cases hc : check_password_hash u.password_hash pw with
    | true =>
      constructor
      · constructor
        · intro _
          exact ⟨u, humem, hue, hc, by simp [login, hf, hc]⟩
        · intro _
          exact ⟨u, humem, hue, hc⟩
      · intro hno
        exact absurd ⟨u, humem, hue, hc⟩ hno
    | false =>
      have huniq : ∀ u2 ∈ users, u2.email = email → u2 = u := by
        intro u2 h2 he2
        exact List.inj_on_of_nodup_map hnd h2 humem (he2.trans hue.symm)
      constructor
      · constructor
        · rintro ⟨u2, h2, he2, hc2⟩
          have := huniq u2 h2 he2
          subst this
          rw [hc] at hc2
          cases hc2
        · rintro ⟨u2, h2, he2, hc2, _⟩
          have := huniq u2 h2 he2
          subst this
          rw [hc] at hc2
          cases hc2
      · intro _
        simp [login, hf, hc]

/-- C5 (witness): a two-user store and a wrong password: the theorem
yields the invalid-credentials outcome at this concrete input. -/
theorem login_spec_witness :
    login none
        [⟨1, "a@x".data, generate_password_hash "pw1".data⟩,
         ⟨2, "b@x".data, generate_password_hash "pw2".data⟩]
        "b@x".data "wrong".data
      = ⟨none, some ("Invalid email or password.".data, "danger".data),
         .renderLogin⟩ :=
  (login_spec
      [⟨1, "a@x".data, generate_password_hash "pw1".data⟩,
       ⟨2, "b@x".data, generate_password_hash "pw2".data⟩]
      "b@x".data "wrong".data (by decide)).2 (by decide)

-- =====================================================================
-- Claim C7: get_answer
-- =====================================================================

/-- C7: for every logged-in POST to `get_answer` with a non-empty query,
the lesson page is always rendered even when every sub-service fails: a
raised exception in text generation yields the fixed fallback answer, a
raised exception in audio generation yields audio None, and a raised
exception or a None result in video or image search yields an empty list
for that modality; an empty (or absent) query redirects back to the tutor
page with an error message. -/
theorem get_answer_spec (query : Option Str) (textR : Except Unit Str)
    (audioR : Str → Except Unit (Option Str))
    (videoR : Except Unit (Option (List Str)))
    (imageR : Except Unit (Option (List Str))) :
    (query = none →
      get_answer true query textR audioR videoR imageR
        = .redirectTutor ("A question is required.".data, "danger".data)) ∧
    (query = some [] →
      get_answer true query textR audioR videoR imageR
        = .redirectTutor ("A question is required.".data, "danger".data)) ∧
    (∀ q, query = some q → q ≠ [] →
      (isLesson (get_answer true query textR audioR videoR imageR)
        = true) ∧
      (textR = .error () →
        pageText (get_answer true query textR audioR videoR imageR)
          = some fallbackAnswer) ∧
      (∀ t, pageText (get_answer true query textR audioR videoR imageR)
          = some t → audioR t = .error () →
        pageAudio (get_answer true query textR audioR videoR imageR)
          = some none) ∧
      ((videoR = .error () ∨ videoR = .ok none) →
        pageVideos (get_answer true query textR audioR videoR imageR)
          = some []) ∧
      ((imageR = .error () ∨ imageR = .ok none) →
        pageImages (get_answer true query textR audioR videoR imageR)
          = some [])) := by
  refine ⟨?_, ?_, ?_⟩
  · intro h
    subst h
    rfl
  · intro h
    subst h
    rfl
  · intro q hq hne
    subst hq
    have hqe : q.isEmpty = false := by
      cases q with
      | nil => exact absurd rfl hne
      | cons a t => rfl
    refine ⟨?_, ?_, ?_, ?_, ?_⟩
    · simp [get_answer, hqe, isLesson]
    · intro ht
      subst ht
      simp [get_answer, hqe, pageText]
    · intro t hT hA
      simp only [get_answer, hqe] at hT ⊢
      simp only [Bool.not_true, Bool.false_eq_true, if_neg,
        not_false_iff, pageText] at hT
      injection hT with hT2
      rw [← hT2] at hA
      simp [pageAudio, hA]
    · intro hv
      rcases hv with h | h <;> subst h <;> simp [get_answer, hqe, pageVideos]
    · intro hv
      rcases hv with h | h <;> subst h <;> simp [get_answer, hqe, pageImages]

/-- C7 (witness): every sub-service failing at once at a concrete query:
the lesson page is rendered with the fallback text and empty media lists,
each fact obtained from the main theorem. -/
theorem get_answer_spec_witness :
    pageText (get_answer true (some "why".data) (.error ())
        (fun _ => .error ()) (.error ()) (.ok none))
      = some fallbackAnswer ∧
    pageVideos (get_answer true (some "why".data) (.error ())
        (fun _ => .error ()) (.error ()) (.ok none)) = some [] ∧
    pageImages (get_answer true (some "why".data) (.error ())
        (fun _ => .error ()) (.error ()) (.ok none)) = some [] := by
  have h := (get_answer_spec (some "why".data) (.error ())
      (fun _ => .error ()) (.error ()) (.ok none)).2.2 "why".data rfl
    (by decide)
  exact ⟨h.2.1 rfl, h.2.2.2.1 (Or.inl rfl), h.2.2.2.2 (Or.inr rfl)⟩

-- =====================================================================
-- Claim C9: the User constructor and password handling
-- =====================================================================

/-- C9 (counterexample): the claim quantifies over every string p, but
models.py line 56 guards the hashing with the truthiness check
`if raw_password:`: constructing a User with password equal to the empty
string leaves `password_hash` unset, and checking the empty password
against it then does not succeed (the program would raise inside werkzeug
on the None hash; the model reports a failed check). -/
theorem user_password_claim_false :
    UserObj.password_hash
      (User.init ⟨none, none, none, none, none, some []⟩ "ab12cd34".data)
      = none ∧
    check_password
      (User.init ⟨none, none, none, none, none, some []⟩ "ab12cd34".data)
      [] = false :=
  ⟨rfl, rfl⟩

/-- C9 (amended): for every non-empty password p, a User constructed with
the keyword argument password=p satisfies check_password p, and equals the
User constructed without a password followed by set_password p (so the
password handling touches only the field password_hash and the plaintext
is stored in no field); for every p, including the empty string,
set_password p itself hashes and verifies, and changes no field but
password_hash; and a User constructed without a username gets the
generated non-null username. -/
theorem user_password_spec (kw : UserKwargs) (p : Str) (suffix : Str)
    (u : UserObj) :
    (p ≠ [] →
      check_password (User.init { kw with password := some p } suffix) p
        = true) ∧
    check_password (set_password u p) p = true ∧
    (p ≠ [] →
      User.init { kw with password := some p } suffix
        = set_password (User.init { kw with password := none } suffix) p)
      ∧
    ((set_password u p).first_name = u.first_name ∧
     (set_password u p).last_name = u.last_name ∧
     (set_password u p).username = u.username ∧
     (set_password u p).dob = u.dob ∧
     (set_password u p).email = u.email ∧
     (set_password u p).profile_pic = u.profile_pic ∧
     (set_password u p).password_hash
       = some (generate_password_hash p)) ∧
    (kw.username = none →
      (User.init kw suffix).username
        = some (sanitizeName (kw.first_name.getD "user".data)
            ++ ('_' :: suffix)) ∧
      (User.init kw suffix).username ≠ none) := by
  refine ⟨?_, ?_, ?_, ⟨rfl, rfl, rfl, rfl, rfl, rfl, rfl⟩, ?_⟩
  · intro hp
    have hpe : p.isEmpty = false := by
      cases p with
      | nil => exact absurd rfl hp
      | cons a t => rfl
    simp [User.init, set_password, check_password, check_password_hash,
      hpe]
  · simp [set_password, check_password, check_password_hash]
  · intro hp
    have hpe : p.isEmpty = false := by
      cases p with
      | nil => exact absurd rfl hp
      | cons a t => rfl
    simp [User.init, set_password, hpe]
  · intro hu
    cases hp : kw.password with
    | none => exact ⟨by simp [User.init, hu, hp], by simp [User.init, hu, hp]⟩
    | some p2 =>
      cases hp2 : p2.isEmpty <;>
        exact ⟨by simp [User.init, set_password, hu, hp, hp2],
          by simp [User.init, set_password, hu, hp, hp2]⟩

/-- C9 (witness): a concrete construction with first name `Jo Ann`, the
non-empty password `secret`, and uuid suffix `ab12cd34`: the stored hash
checks out and the generated username is the sanitized name plus the
suffix. -/
theorem user_password_spec_witness :
    "secret".data ≠ [] ∧
    check_password
      (User.init ⟨some "Jo Ann".data, none, none, none, none,
        some "secret".data⟩ "ab12cd34".data) "secret".data = true ∧
    (User.init ⟨some "Jo Ann".data, none, none, none, none, none⟩
      "ab12cd34".data).username = some "joann_ab12cd34".data :=
  ⟨by decide,
   (user_password_spec
      ⟨some "Jo Ann".data, none, none, none, none, none⟩
      "secret".data "ab12cd34".data
      ⟨none, none, none, none, none, none, none⟩).1 (by decide),
   by
    have h := ((user_password_spec
        ⟨some "Jo Ann".data, none, none, none, none, none⟩
        "secret".data "ab12cd34".data
        ⟨none, none, none, none, none, none, none⟩).2.2.2.2 rfl).1
    rw [h]
    rfl⟩

-- =====================================================================
-- Claim C8: generate_text_answer
-- =====================================================================

/-- C8: for every query (the query text does not influence the branch
taken, so the statement ranges over the search outcome), the embedded
`generate_text_answer` is a total function into strings with: the
configuration-error message when the Search API is not configured, the
exact no-results string when the response object has no `items` key or a
falsy one, an error-message string on HTTP or network failure, and
otherwise a summary built from at most the first 3 items (title, snippet
and link of each, with the `.get` defaults). -/
theorem generate_text_answer_spec (configured : Bool)
    (outcome : SearchOutcome) :
    (configured = false →
      generate_text_answer configured outcome = notConfiguredMsg) ∧
    (∀ m, configured = true → outcome = .httpError m →
      generate_text_answer configured outcome
        = "Error fetching data from Google Search (HTTP Error): ".data
            ++ m) ∧
    (∀ m, configured = true → outcome = .netError m →
      generate_text_answer configured outcome
        = "Error fetching data from Google Search (Network Error): ".data
            ++ m) ∧
    (∀ kvs, configured = true → outcome = .ok (.obj kvs) →
      dictHas kvs "items".data = false →
      generate_text_answer configured outcome = noResultsMsg) ∧
    (∀ kvs, configured = true → outcome = .ok (.obj kvs) →
      dictGet kvs "items".data = some (.arr []) →
      generate_text_answer configured outcome = noResultsMsg) ∧
    (∀ kvs xs l, configured = true → outcome = .ok (.obj kvs) →
      dictGet kvs "items".data = some (.arr xs) → xs ≠ [] →
      summariesOf (xs.take 3) = some l →
      generate_text_answer configured outcome
        = joinSep "\n\n".data ("**Top Search Results:**".data :: l)) := by
  refine ⟨?_, ?_, ?_, ?_, ?_, ?_⟩
  · intro h
    subst h
    rfl
  · intro m h1 h2
    subst h1
    subst h2
    rfl
  · intro m h1 h2
    subst h1
    subst h2
    rfl
  · intro kvs h1 h2 h3
    subst h1
    subst h2
    simp [generate_text_answer, pyContains, h3]
  · intro kvs h1 h2 h3
    subst h1
    subst h2
    simp [generate_text_answer, pyContains, pySubscript,
      dictGet_some_has h3, h3, pyTruthy]
  · intro kvs xs l h1 h2 h3 hne h4
    subst h1
    subst h2
    have htr : pyTruthy (Json.arr xs) = true := by
      cases xs with
      | nil => exact absurd rfl hne
      | cons a t => rfl
    simp [generate_text_answer, pyContains, pySubscript,
      dictGet_some_has h3, h3, htr, h4]

/-- C8 (witness): a configured search over one well-formed item and one
item missing its fields: the reply is the summary of both with the
defaults filled in. -/
theorem generate_text_answer_spec_witness :
    generate_text_answer true (.ok (.obj [("items".data,
        Json.arr [Json.obj [("title".data, Json.str "T".data),
            ("snippet".data, Json.str "S".data),
            ("link".data, Json.str "http://u".data)],
          Json.obj []])]))
      = joinSep "\n\n".data ("**Top Search Results:**".data ::
          [summaryOf [("title".data, Json.str "T".data),
            ("snippet".data, Json.str "S".data),
            ("link".data, Json.str "http://u".data)],
           summaryOf []]) := by
  have h := (generate_text_answer_spec true (.ok (.obj [("items".data,
      Json.arr [Json.obj [("title".data, Json.str "T".data),
          ("snippet".data, Json.str "S".data),
          ("link".data, Json.str "http://u".data)],
        Json.obj []])]))).2.2.2.2.2
    [("items".data,
      Json.arr [Json.obj [("title".data, Json.str "T".data),
          ("snippet".data, Json.str "S".data),
          ("link".data, Json.str "http://u".data)],
        Json.obj []])]
    [Json.obj [("title".data, Json.str "T".data),
        ("snippet".data, Json.str "S".data),
        ("link".data, Json.str "http://u".data)],
      Json.obj []]
    [summaryOf [("title".data, Json.str "T".data),
        ("snippet".data, Json.str "S".data),
        ("link".data, Json.str "http://u".data)],
     summaryOf []]
    rfl rfl rfl (by simp) rfl
  exact h

-- =====================================================================
-- Claim C10: complete_video
-- =====================================================================

/-- C10: for every user and every existing video, a POST to
`complete_video` adds the video to the user completion list only when it
is not already present; the operation is idempotent, never introduces a
duplicate (distinctness of the list is preserved), and changes no other
user field. -/
theorem complete_video_spec (videos : List (Int × Int)) (user : TutorUser)
    (vid cid : Int)
    (hfind : videos.find? (fun v => v.1 == vid) = some (vid, cid)) :
    (user.completed_videos.any (fun x => x == vid) = true →
      complete_video true videos user vid = .done user false cid) ∧
    (user.completed_videos.any (fun x => x == vid) = false →
      complete_video true videos user vid
        = .done { user with
            completed_videos := user.completed_videos ++ [vid] }
          true cid) ∧
    (completeVideoUser videos (completeVideoUser videos user vid) vid
      = completeVideoUser videos user vid) ∧
    ((completeVideoUser videos user vid).id = user.id ∧
     (completeVideoUser videos user vid).first_name = user.first_name ∧
     (completeVideoUser videos user vid).last_name = user.last_name ∧
     (completeVideoUser videos user vid).username = user.username ∧
     (completeVideoUser videos user vid).dob = user.dob ∧
     (completeVideoUser videos user vid).email = user.email ∧
     (completeVideoUser videos user vid).profile_pic = user.profile_pic ∧
     (completeVideoUser videos user vid).password_hash
       = user.password_hash) ∧
    (user.completed_videos.Nodup →
      (completeVideoUser videos user vid).completed_videos.Nodup) := by
  have hbranch : ∀ u2 : TutorUser,
      u2.completed_videos.any (fun x => x == vid) = true →
      complete_video true videos u2 vid = .done u2 false cid := by
    intro u2 h
    simp [complete_video, hfind, h]
  have hbranch2 : ∀ u2 : TutorUser,
      u2.completed_videos.any (fun x => x == vid) = false →
      complete_video true videos u2 vid
        = .done { u2 with
            completed_videos := u2.completed_videos ++ [vid] } true cid := by
    intro u2 h
    simp [complete_video, hfind, h]
  refine ⟨hbranch user, hbranch2 user, ?_, ?_, ?_⟩
  · cases hmem : user.completed_videos.any (fun x => x == vid) with
    | true =>
      have h1 : completeVideoUser videos user vid = user := by
        simp [completeVideoUser, hbranch user hmem]
      rw [h1]
      exact h1
    | false =>
      have h1 : completeVideoUser videos user vid
          = { user with
              completed_videos := user.completed_videos ++ [vid] } := by
        simp [completeVideoUser, hbranch2 user hmem]
      rw [h1]
      have hmem2 : ({ user with
          completed_videos := user.completed_videos ++ [vid] }
            : TutorUser).completed_videos.any (fun x => x == vid)
          = true := by
        simp [List.any_append]
      simp [completeVideoUser, hbranch _ hmem2]
  · cases hmem : user.completed_videos.any (fun x => x == vid) with
    | true =>
      have h1 : completeVideoUser videos user vid = user := by
        simp [completeVideoUser, hbranch user hmem]
      rw [h1]
      exact ⟨rfl, rfl, rfl, rfl, rfl, rfl, rfl, rfl⟩
    | false =>
      have h1 : completeVideoUser videos user vid
          = { user with
              completed_videos := user.completed_videos ++ [vid] } := by
        simp [completeVideoUser, hbranch2 user hmem]
      rw [h1]
      exact ⟨rfl, rfl, rfl, rfl, rfl, rfl, rfl, rfl⟩
  · intro hnd
    cases hmem : user.completed_videos.any (fun x => x == vid) with
    | true =>
      have h1 : completeVideoUser videos user vid = user := by
        simp [completeVideoUser, hbranch user hmem]
      rw [h1]
      exact hnd
    | false =>
      have h1 : completeVideoUser videos user vid
          = { user with
              completed_videos := user.completed_videos ++ [vid] } := by
        simp [completeVideoUser, hbranch2 user hmem]
      rw [h1]
      have hnotin : vid ∉ user.completed_videos := by
        intro hmem2
        have : user.completed_videos.any (fun x => x == vid) = true :=
          List.any_eq_true.mpr ⟨vid, hmem2, by simp⟩
        rw [this] at hmem
        cases hmem
      simp only [List.nodup_append]
      exact ⟨hnd, List.nodup_singleton vid, by
        intro a ha hb
        rw [List.mem_singleton] at hb
        subst hb
        exact hnotin ha⟩

/-- C10 (witness): completing video 7 twice for a concrete user adds it
once; all other fields survive unchanged. -/
theorem complete_video_spec_witness :
    complete_video true [(7, 3)]
        ⟨1, "f".data, "l".data, "u".data, "d".data, "e".data, "p".data,
         "h".data, [5]⟩ 7
      = .done ⟨1, "f".data, "l".data, "u".data, "d".data, "e".data,
          "p".data, "h".data, [5, 7]⟩ true 3 ∧
    completeVideoUser [(7, 3)]
        (completeVideoUser [(7, 3)]
          ⟨1, "f".data, "l".data, "u".data, "d".data, "e".data, "p".data,
           "h".data, [5]⟩ 7)
        7
      = completeVideoUser [(7, 3)]
          ⟨1, "f".data, "l".data, "u".data, "d".data, "e".data, "p".data,
           "h".data, [5]⟩ 7 := by
  have h := complete_video_spec [(7, 3)]
    ⟨1, "f".data, "l".data, "u".data, "d".data, "e".data, "p".data,
     "h".data, [5]⟩ 7 3 rfl
  exact ⟨h.2.1 (by decide), h.2.2.1⟩

end Tutor
